import Mathlib

/-!
Shallow embedding of the dough-simulation core (pain_core/src/lib.rs).

Scalars are modelled as rationals.  The Euclidean norm computed by
nalgebra's magnitude() is irrational in general, so every function that
consumes a vector magnitude takes it as an explicit parameter
(mag : Vec3 → ℚ); theorems assume of it only what they need
(for example mag 0 = 0).  Rust HashMaps are modelled as association
lists (molecule store) and as total functions defaulting to the empty
bucket (cell grid); iteration order is fixed to insertion order.
Randomness (rand::thread_rng) is modelled as an explicit stream of
rational samples in [0,1) threaded through the computation; gen_range
(a..b) is a + u * (b - a) and integer gen_range takes the floor.
-/

/-- 3-component vector of rationals, modelling nalgebra's Vector3 of f32. -/
structure Vec3 where
  x : ℚ
  y : ℚ
  z : ℚ
deriving DecidableEq

def Vec3.add (a b : Vec3) : Vec3 := ⟨a.x + b.x, a.y + b.y, a.z + b.z⟩

def Vec3.sub (a b : Vec3) : Vec3 := ⟨a.x - b.x, a.y - b.y, a.z - b.z⟩

def Vec3.negate (a : Vec3) : Vec3 := ⟨-a.x, -a.y, -a.z⟩

/-- Componentwise scaling, modelling vector-times-scalar. -/
def Vec3.scale (a : Vec3) (c : ℚ) : Vec3 := ⟨a.x * c, a.y * c, a.z * c⟩

instance : Add Vec3 := ⟨Vec3.add⟩

instance : Sub Vec3 := ⟨Vec3.sub⟩

instance : Neg Vec3 := ⟨Vec3.negate⟩

/-- The L1 norm: a concrete computable stand-in used to instantiate the
magnitude parameter in witnesses (it satisfies mag v = 0 iff v = 0). -/
def magL1 (v : Vec3) : ℚ := |v.x| + |v.y| + |v.z|

/-- Random-number source: a stream of samples in [0,1) plus a cursor,
modelling rand::thread_rng draws in program order. -/
structure Rng where
  stream : Nat → ℚ
  idx : Nat

def Rng.next (r : Rng) : ℚ × Rng := (r.stream r.idx, ⟨r.stream, r.idx + 1⟩)

/-- gen_range(lo..hi) on floats: lo + u * (hi - lo) for a sample u. -/
def Rng.range (r : Rng) (lo hi : ℚ) : ℚ × Rng :=
  let (u, r') := r.next
  (lo + u * (hi - lo), r')

/-- gen_range(lo..hi) on integers: lo + floor (u * (hi - lo)). -/
def Rng.rangeInt (r : Rng) (lo hi : ℤ) : ℤ × Rng :=
  let (u, r') := r.next
  (lo + ⌊u * ((hi : ℚ) - (lo : ℚ))⌋, r')

/-- The all-zero sample stream, used for concrete evaluations. -/
def rngZero : Rng := ⟨fun _ => 0, 0⟩

/-- MoleculeType from pain_core. -/
inductive MoleculeType where
  | Gliadin
  | Glutenin (has_free_thiol : Bool)
  | Water
  | Yeast
  | CO2
  | Ethanol
  | Sugar
  | Salt
  | Ash
deriving DecidableEq

/-- Molecule from pain_core: id, position, velocity, type. -/
structure Molecule where
  id : ℕ
  pos : Vec3
  velocity : Vec3
  mol_type : MoleculeType
deriving DecidableEq

/-- Molecule::new — the id 0 placeholder is overwritten by insert. -/
def Molecule.new (mol_type : MoleculeType) (pos velocity : Vec3) : Molecule :=
  { id := 0, pos := pos, velocity := velocity, mol_type := mol_type }

/-- Molecule::radius. -/
def Molecule.radius (m : Molecule) : ℚ :=
  match m.mol_type with
  | .Gliadin => 3
  | .Glutenin _ => 4
  | .Water => 1.5
  | .Yeast => 5
  | .CO2 => 8
  | .Ethanol => 2
  | .Sugar => 2.5
  | .Salt => 1.8
  | .Ash => 2

/-- Molecule::mass. -/
def Molecule.mass (m : Molecule) : ℚ :=
  match m.mol_type with
  | .Gliadin => 10
  | .Glutenin _ => 12
  | .Water => 1
  | .Yeast => 15
  | .CO2 => 2
  | .Ethanol => 3
  | .Sugar => 4
  | .Salt => 2
  | .Ash => 2

/-- Bond from pain_core.  target_distance holds whatever rational the
magnitude parameter produced at creation time. -/
structure Bond where
  molecule_a_id : ℕ
  molecule_b_id : ℕ
  target_distance : ℚ
deriving DecidableEq

/-- Cell coordinate triple. -/
abbrev Cell := ℤ × ℤ × ℤ

/-- SpatialGrid3D: the cell buckets are a total function (missing
HashMap entries behave exactly like empty vectors), the molecule store
is an association list in insertion order. -/
structure SpatialGrid3D where
  cell_size : ℚ
  grid : Cell → List ℕ
  molecules : List (ℕ × Molecule)
  next_id : ℕ

/-- Point update of the bucket function at one cell. -/
def updCell (g : Cell → List ℕ) (c : Cell) (f : List ℕ → List ℕ) : Cell → List ℕ :=
  fun c' => if c' = c then f (g c) else g c'

/-- SpatialGrid3D::new — width/height/depth are accepted and ignored,
as in the source. -/
def SpatialGrid3D.new (_width _height _depth cell_size : ℚ) : SpatialGrid3D :=
  { cell_size := cell_size, grid := fun _ => [], molecules := [], next_id := 1 }

/-- SpatialGrid3D::get_cell_coords: floor(coordinate / cell_size) per axis. -/
def SpatialGrid3D.get_cell_coords (g : SpatialGrid3D) (pos : Vec3) : Cell :=
  (⌊pos.x / g.cell_size⌋, ⌊pos.y / g.cell_size⌋, ⌊pos.z / g.cell_size⌋)

/-- SpatialGrid3D::get_molecule. -/
def SpatialGrid3D.get_molecule (g : SpatialGrid3D) (id : ℕ) : Option Molecule :=
  (g.molecules.find? (fun p => p.1 == id)).map Prod.snd

/-- SpatialGrid3D::insert: assign next_id, store, register in the cell
bucket, return the id. -/
def SpatialGrid3D.insert (g : SpatialGrid3D) (molecule : Molecule) : ℕ × SpatialGrid3D :=
  let id := g.next_id
  let m := { molecule with id := id }
  let cell_coords := g.get_cell_coords m.pos
  (id,
   { g with
      next_id := id + 1,
      molecules := g.molecules ++ [(id, m)],
      grid := updCell g.grid cell_coords (fun l => l ++ [id]) })

/-- The 3x3x3 block of cells scanned by get_neighbors, in loop order. -/
def neighborCells (c : Cell) : List Cell :=
  ([-1, 0, 1] : List ℤ).flatMap fun dx =>
    ([-1, 0, 1] : List ℤ).flatMap fun dy =>
      ([-1, 0, 1] : List ℤ).map fun dz => (c.1 + dx, c.2.1 + dy, c.2.2 + dz)

/-- SpatialGrid3D::get_neighbors: every molecule registered in the 27
cells around the cell containing pos, skipping ids with no live
molecule. -/
def SpatialGrid3D.get_neighbors (g : SpatialGrid3D) (pos : Vec3) : List Molecule :=
  (neighborCells (g.get_cell_coords pos)).flatMap fun cell_coords =>
    (g.grid cell_coords).filterMap fun id => g.get_molecule id

/-- SpatialGrid3D::remove: drop the molecule and retain every other id
in the bucket of the cell computed from the molecule's stored position. -/
def SpatialGrid3D.remove (g : SpatialGrid3D) (id : ℕ) : SpatialGrid3D :=
  match g.get_molecule id with
  | none => g
  | some molecule =>
    let cell_coords := g.get_cell_coords molecule.pos
    { g with
        molecules := g.molecules.filter (fun p => p.1 != id),
        grid := updCell g.grid cell_coords (fun l => l.filter (fun i => i != id)) }

/-- SpatialGrid3D::update_molecule_pos: if present, write the new
position, remove the id from the bucket of the cell computed from the
previously stored position, and push it into the bucket of the new cell. -/
def SpatialGrid3D.update_molecule_pos (g : SpatialGrid3D) (id : ℕ) (new_pos : Vec3) :
    SpatialGrid3D :=
  match g.get_molecule id with
  | none => g
  | some mol =>
    let old_pos := mol.pos
    let molecules' := g.molecules.map fun p =>
      if p.1 = id then (p.1, { p.2 with pos := new_pos }) else p
    let old_cell_coords := g.get_cell_coords old_pos
    let grid1 := updCell g.grid old_cell_coords (fun l => l.filter (fun i => i != id))
    let new_cell_coords := g.get_cell_coords new_pos
    { g with
        molecules := molecules',
        grid := updCell grid1 new_cell_coords (fun l => l ++ [id]) }

/-- SpatialGrid3D::get_all_molecules (values of the store, in model order). -/
def SpatialGrid3D.get_all_molecules (g : SpatialGrid3D) : List Molecule :=
  g.molecules.map Prod.snd

/-- The get_molecule_mut idiom: apply f to the stored molecule with the
given id, no-op when absent. -/
def SpatialGrid3D.modifyMolecule (g : SpatialGrid3D) (id : ℕ) (f : Molecule → Molecule) :
    SpatialGrid3D :=
  { g with molecules := g.molecules.map fun p => if p.1 = id then (p.1, f p.2) else p }

/-- SimulationState from pain_core. -/
structure SimulationState where
  grid : SpatialGrid3D
  bonds : List Bond
  width : ℚ
  height : ℚ
  depth : ℚ
  temperature : ℚ
  time_elapsed : ℚ
  recipe_hydration : ℚ
  recipe_salt : ℚ
  recipe_yeast : ℚ
  autolyse_time : ℚ
  salt_added : Bool
  yeast_added : Bool

/-- SimulationState::new. -/
def SimulationState.new (width height depth : ℚ) : SimulationState :=
  { grid := SpatialGrid3D.new width height depth 15,
    bonds := [],
    width := width, height := height, depth := depth,
    temperature := 25,
    time_elapsed := 0,
    recipe_hydration := 0.72,
    recipe_salt := 0.02,
    recipe_yeast := 0.20,
    autolyse_time := 1800,
    salt_added := true,
    yeast_added := false }

/-- Integration step of tick: pos += velocity * dt. -/
def moveMol (dt : ℚ) (m : Molecule) : Molecule :=
  { m with pos := m.pos + m.velocity.scale dt }

/-- Boundary-resolution step of tick: the six sequential per-axis
clamp-and-reflect checks, in source order. -/
def boundMol (width height depth : ℚ) (m : Molecule) : Molecule :=
  let m := if m.pos.x < m.radius then
      { m with pos := { m.pos with x := m.radius },
               velocity := { m.velocity with x := -m.velocity.x * 0.8 } } else m
  let m := if width - m.radius < m.pos.x then
      { m with pos := { m.pos with x := width - m.radius },
               velocity := { m.velocity with x := -m.velocity.x * 0.8 } } else m
  let m := if m.pos.y < m.radius then
      { m with pos := { m.pos with y := m.radius },
               velocity := { m.velocity with y := -m.velocity.y * 0.8 } } else m
  let m := if height - m.radius < m.pos.y then
      { m with pos := { m.pos with y := height - m.radius },
               velocity := { m.velocity with y := -m.velocity.y * 0.8 } } else m
  let m := if m.pos.z < m.radius then
      { m with pos := { m.pos with z := m.radius },
               velocity := { m.velocity with z := -m.velocity.z * 0.8 } } else m
  let m := if depth - m.radius < m.pos.z then
      { m with pos := { m.pos with z := depth - m.radius },
               velocity := { m.velocity with z := -m.velocity.z * 0.8 } } else m
  m

/-- Friction step of tick: velocity *= 0.999. -/
def frictionMol (m : Molecule) : Molecule :=
  { m with velocity := m.velocity.scale 0.999 }

/-- The whole per-molecule physics update of tick, in source order:
integrate, resolve boundaries, apply friction. -/
def integrateMol (width height depth dt : ℚ) (m : Molecule) : Molecule :=
  frictionMol (boundMol width height depth (moveMol dt m))

/-- Unordered-pair bond comparison used by the duplicate check. -/
def bondSame (b bond : Bond) : Bool :=
  (b.molecule_a_id == bond.molecule_a_id && b.molecule_b_id == bond.molecule_b_id)
    || (b.molecule_a_id == bond.molecule_b_id && b.molecule_b_id == bond.molecule_a_id)

/-- The commit loop of form_disulfide_bridges: append each candidate
bond unless an unordered-equal bond is already present (including ones
appended earlier in this very loop). -/
def addNewBonds (bonds new_bonds : List Bond) : List Bond :=
  new_bonds.foldl
    (fun bs bond => if bs.any (fun b => bondSame b bond) then bs else bs ++ [bond])
    bonds

/-- The thiol-state commit: a Glutenin loses its free thiol, any other
type is untouched. -/
def clearThiol (m : Molecule) : Molecule :=
  match m.mol_type with
  | .Glutenin _ => { m with mol_type := .Glutenin false }
  | _ => m

/-- One step of the thiol-update loop of form_disulfide_bridges. -/
def SpatialGrid3D.setThiolFalse (g : SpatialGrid3D) (id : ℕ) : SpatialGrid3D :=
  g.modifyMolecule id clearThiol

/-- Accumulator of the scan phase of form_disulfide_bridges: the
new_bonds and mol_ids_to_update vectors, plus the random stream. -/
structure ScanAcc where
  new_bonds : List Bond
  mol_ids_to_update : List ℕ
  rng : Rng

/-- Inner loop body of the scan: one candidate neighbor of a reactive
glutenin mol. -/
def scanNeighbor (mag : Vec3 → ℚ) (g : SpatialGrid3D) (temperature : ℚ) (mol : Molecule)
    (acc : ScanAcc) (neighbor : Molecule) : ScanAcc :=
  if neighbor.id = mol.id then acc
  else
    match neighbor.mol_type with
    | .Glutenin true =>
      let dist := mag (mol.pos - neighbor.pos)
      if dist < 8 then
        let reaction_prob : ℚ := 0.20 * max (temperature / 25) 0.1
        let reaction_prob :=
          if (g.get_neighbors mol.pos).any (fun n => n.mol_type == MoleculeType.Salt)
          then reaction_prob * 1.2 else reaction_prob
        let (u, rng') := acc.rng.next
        if u < reaction_prob * 0.1 then
          { new_bonds := acc.new_bonds ++ [⟨mol.id, neighbor.id, dist⟩],
            mol_ids_to_update := acc.mol_ids_to_update ++ [mol.id, neighbor.id],
            rng := rng' }
        else { acc with rng := rng' }
      else acc
    | _ => acc

/-- Outer loop body of the scan: only reactive glutenins query their
neighborhood. -/
def scanMol (mag : Vec3 → ℚ) (g : SpatialGrid3D) (temperature : ℚ)
    (acc : ScanAcc) (mol : Molecule) : ScanAcc :=
  match mol.mol_type with
  | .Glutenin true => (g.get_neighbors mol.pos).foldl (scanNeighbor mag g temperature mol) acc
  | _ => acc

/-- SimulationState::form_disulfide_bridges: scan over the pre-state,
then commit bonds (with the unordered duplicate check) and clear the
thiol flag of every scheduled id. -/
def SimulationState.form_disulfide_bridges (mag : Vec3 → ℚ) (s : SimulationState)
    (rng : Rng) : SimulationState × Rng :=
  let acc := s.grid.get_all_molecules.foldl (scanMol mag s.grid s.temperature)
    ⟨[], [], rng⟩
  let bonds' := addNewBonds s.bonds acc.new_bonds
  let grid' := acc.mol_ids_to_update.foldl SpatialGrid3D.setThiolFalse s.grid
  ({ s with bonds := bonds', grid := grid' }, acc.rng)

/-- Accumulator of the yeast scan: consumed sugar ids, produced
molecules, random stream. -/
structure YeastAcc where
  consumed_sugars : List ℕ
  new_molecules : List Molecule
  rng : Rng

/-- Inner loop body of the yeast scan: one candidate neighbor of a
yeast molecule. -/
def yeastNeighbor (mag : Vec3 → ℚ) (temperature dt : ℚ) (mol : Molecule)
    (acc : YeastAcc) (neighbor : Molecule) : YeastAcc :=
  if neighbor.id = mol.id then acc
  else
    match neighbor.mol_type with
    | .Sugar =>
      let dist := mag (mol.pos - neighbor.pos)
      if dist < 5 then
        let acc := { acc with consumed_sugars := acc.consumed_sugars ++ [neighbor.id] }
        let metabolism_rate := max (temperature / 20) 0.1
        let (u, rng1) := acc.rng.next
        if u < 0.01 * metabolism_rate * dt then
          let (ox, rng2) := rng1.range (-3) 3
          let (oy, rng3) := rng2.range (-3) 3
          let (oz, rng4) := rng3.range (-3) 3
          let co2_pos : Vec3 := ⟨mol.pos.x + ox, mol.pos.y + oy, mol.pos.z + oz⟩
          let (cvx, rng5) := rng4.range (-0.2) 0.2
          let (cvy, rng6) := rng5.range (-0.2) 0.2
          let (cvz, rng7) := rng6.range (-0.2) 0.2
          let acc := { acc with
            new_molecules := acc.new_molecules ++ [Molecule.new .CO2 co2_pos ⟨cvx, cvy, cvz⟩],
            rng := rng7 }
          let (u2, rng8) := acc.rng.next
          if u2 < 0.3 then
            let (ex, rng9) := rng8.range (-2) 2
            let (ey, rng10) := rng9.range (-2) 2
            let (ez, rng11) := rng10.range (-2) 2
            let ethanol_pos : Vec3 := ⟨mol.pos.x + ex, mol.pos.y + ey, mol.pos.z + ez⟩
            let (evx, rng12) := rng11.range (-0.1) 0.1
            let (evy, rng13) := rng12.range (-0.1) 0.1
            let (evz, rng14) := rng13.range (-0.1) 0.1
            { acc with
                new_molecules := acc.new_molecules ++
                  [Molecule.new .Ethanol ethanol_pos ⟨evx, evy, evz⟩],
                rng := rng14 }
          else { acc with rng := rng8 }
        else { acc with rng := rng1 }
      else acc
    | _ => acc

/-- Outer loop body of the yeast scan. -/
def yeastMol (mag : Vec3 → ℚ) (g : SpatialGrid3D) (temperature dt : ℚ)
    (acc : YeastAcc) (mol : Molecule) : YeastAcc :=
  match mol.mol_type with
  | .Yeast => (g.get_neighbors mol.pos).foldl (yeastNeighbor mag temperature dt mol) acc
  | _ => acc

/-- SimulationState::handle_yeast_activity: scan, insert produced
molecules, remove consumed sugars, then give every CO2 molecule its
per-tick buoyancy and jitter kick. -/
def SimulationState.handle_yeast_activity (mag : Vec3 → ℚ) (s : SimulationState)
    (dt : ℚ) (rng : Rng) : SimulationState × Rng :=
  let acc := s.grid.get_all_molecules.foldl (yeastMol mag s.grid s.temperature dt)
    ⟨[], [], rng⟩
  let g1 := acc.new_molecules.foldl (fun g m => (g.insert m).2) s.grid
  let g2 := acc.consumed_sugars.foldl SpatialGrid3D.remove g1
  let gr := g2.molecules.foldl
    (fun (gr : SpatialGrid3D × Rng) p =>
      match p.2.mol_type with
      | .CO2 =>
        let (u, r2) := gr.2.range (-0.02) 0.02
        (gr.1.modifyMolecule p.1 (fun m =>
          { m with velocity := { m.velocity with
              y := m.velocity.y - 0.05, x := m.velocity.x + u } }), r2)
      | _ => gr)
    (g2, acc.rng)
  ({ s with grid := gr.1 }, gr.2)

/-- SimulationState::handle_chemistry. -/
def SimulationState.handle_chemistry (mag : Vec3 → ℚ) (s : SimulationState)
    (dt : ℚ) (rng : Rng) : SimulationState × Rng :=
  let sr := s.form_disulfide_bridges mag rng
  if sr.1.yeast_added then sr.1.handle_yeast_activity mag dt sr.2 else sr

/-- Velocity clamp: if the magnitude exceeds max_vel, normalize and
rescale to max_vel. -/
def clampVel (mag : Vec3 → ℚ) (max_vel : ℚ) (m : Molecule) : Molecule :=
  if max_vel < mag m.velocity then
    { m with velocity := (m.velocity.scale (1 / mag m.velocity)).scale max_vel }
  else m

/-- The HashMap entry().and_modify().or_insert() idiom on the force
accumulator, modelled as an association list. -/
def upsertForce (forces : List (ℕ × Vec3)) (id : ℕ) (f : Vec3 → Vec3) (dflt : Vec3) :
    List (ℕ × Vec3) :=
  if forces.any (fun p => p.1 == id) then
    forces.map fun p => if p.1 = id then (p.1, f p.2) else p
  else forces ++ [(id, dflt)]

/-- One bond's contribution to the accumulated correction forces of
apply_bond_constraints. -/
def accumBond (mag : Vec3 → ℚ) (g : SpatialGrid3D) (forces : List (ℕ × Vec3))
    (bond : Bond) : List (ℕ × Vec3) :=
  match g.get_molecule bond.molecule_a_id, g.get_molecule bond.molecule_b_id with
  | some mol_a, some mol_b =>
    let diff := mol_b.pos - mol_a.pos
    let current_dist := mag diff
    if 0 < current_dist then
      let correction := (bond.target_distance - current_dist) / current_dist * 0.5
      let correction_vec := diff.scale correction
      let forces := upsertForce forces mol_a.id (fun f => f + correction_vec) correction_vec
      upsertForce forces mol_b.id (fun f => f - correction_vec) (-correction_vec)
    else forces
  | _, _ => forces

/-- SimulationState::apply_bond_constraints: accumulate all corrections,
then apply each entry as a velocity impulse with the 3.0 clamp. -/
def SimulationState.apply_bond_constraints (mag : Vec3 → ℚ) (s : SimulationState) :
    SimulationState :=
  let forces := s.bonds.foldl (accumBond mag s.grid) []
  let grid' := forces.foldl
    (fun g p => g.modifyMolecule p.1 (fun m =>
      clampVel mag 3 { m with velocity := m.velocity + p.2.scale (1 / m.mass) }))
    s.grid
  { s with grid := grid' }

/-- SimulationState::apply_force_to_region: broad phase via the index,
narrow phase by true distance, then velocity impulse with the 5.0 clamp. -/
def SimulationState.apply_force_to_region (mag : Vec3 → ℚ) (s : SimulationState)
    (center : Vec3) (radius : ℚ) (force : Vec3) : SimulationState :=
  let mol_ids_to_update := (s.grid.get_neighbors center).filterMap fun m =>
    if mag (m.pos - center) < radius then some m.id else none
  let grid' := mol_ids_to_update.foldl
    (fun g id => g.modifyMolecule id (fun m =>
      clampVel mag 5 { m with velocity := m.velocity + force.scale (1 / m.mass) }))
    s.grid
  { s with grid := grid' }

/-- SimulationState::tick: advance time, mutate every molecule's
position and velocity in place, then push every (id, pos) pair through
update_molecule_pos, then chemistry, then bond constraints. -/
def SimulationState.tick (mag : Vec3 → ℚ) (s : SimulationState) (dt : ℚ) (rng : Rng) :
    SimulationState × Rng :=
  let s1 := { s with time_elapsed := s.time_elapsed + dt }
  let mols' := s1.grid.molecules.map fun p =>
    (p.1, integrateMol s1.width s1.height s1.depth dt p.2)
  let molecules_to_update := mols'.map fun p => (p.2.id, p.2.pos)
  let g1 := { s1.grid with molecules := mols' }
  let g2 := molecules_to_update.foldl (fun g ip => g.update_molecule_pos ip.1 ip.2) g1
  let s2 := { s1 with grid := g2 }
  let sr := s2.handle_chemistry mag dt rng
  (sr.1.apply_bond_constraints mag, sr.2)

/-- Iterated ticks with a fixed dt. -/
def ticks (mag : Vec3 → ℚ) (dt : ℚ) : ℕ → SimulationState × Rng → SimulationState × Rng
  | 0, sr => sr
  | n + 1, sr => ticks mag dt n (sr.1.tick mag dt sr.2)

/-- The protein-spawning loop of initialize_classic_recipe: uniform
position, small velocity, then a 0..100 integer draw deciding Gliadin
(below 40) versus reactive Glutenin. -/
def spawnProteins (width height depth : ℚ) : ℕ → SpatialGrid3D → Rng → SpatialGrid3D × Rng
  | 0, g, rng => (g, rng)
  | n + 1, g, rng =>
    let (x, rng) := rng.range 0 width
    let (y, rng) := rng.range 0 height
    let (z, rng) := rng.range 0 depth
    let (vel_x, rng) := rng.range (-0.1) 0.1
    let (vel_y, rng) := rng.range (-0.1) 0.1
    let (vel_z, rng) := rng.range (-0.1) 0.1
    let (protein_choice, rng) := rng.rangeInt 0 100
    let molecule :=
      if protein_choice < 40 then
        Molecule.new .Gliadin ⟨x, y, z⟩ ⟨vel_x, vel_y, vel_z⟩
      else
        Molecule.new (.Glutenin true) ⟨x, y, z⟩ ⟨vel_x, vel_y, vel_z⟩
    spawnProteins width height depth n (g.insert molecule).2 rng

/-- The water-spawning loop of initialize_classic_recipe. -/
def spawnWater (width height depth : ℚ) : ℕ → SpatialGrid3D → Rng → SpatialGrid3D × Rng
  | 0, g, rng => (g, rng)
  | n + 1, g, rng =>
    let (x, rng) := rng.range 0 width
    let (y, rng) := rng.range 0 height
    let (z, rng) := rng.range 0 depth
    let (vel_x, rng) := rng.range (-0.2) 0.2
    let (vel_y, rng) := rng.range (-0.2) 0.2
    let (vel_z, rng) := rng.range (-0.2) 0.2
    spawnWater width height depth n
      (g.insert (Molecule.new .Water ⟨x, y, z⟩ ⟨vel_x, vel_y, vel_z⟩)).2 rng

/-- SimulationState::initialize_classic_recipe: reset recipe constants,
replace the index wholesale, clear bonds/time/flags, then spawn 200
proteins and 200 waters. -/
def SimulationState.initialize_classic_recipe (s : SimulationState) (rng : Rng) :
    SimulationState × Rng :=
  let g0 := SpatialGrid3D.new s.width s.height s.depth 15
  let gr1 := spawnProteins s.width s.height s.depth 200 g0 rng
  let gr2 := spawnWater s.width s.height s.depth 200 gr1.1 gr1.2
  ({ s with
      recipe_hydration := 0.72,
      recipe_salt := 0.02,
      recipe_yeast := 0.20,
      autolyse_time := 1800,
      temperature := 25,
      grid := gr2.1,
      bonds := [],
      time_elapsed := 0,
      salt_added := false,
      yeast_added := false }, gr2.2)

/-- The salt amount computed by add_salt; the f32-to-usize cast
truncates toward zero and saturates at zero. -/
def saltAmount (s : SimulationState) : ℕ :=
  (⌊s.width * s.height * s.depth * 0.00005 * s.recipe_salt⌋).toNat

/-- The salt-spawning loop of add_salt. -/
def spawnSalt (width height depth : ℚ) : ℕ → SpatialGrid3D → Rng → SpatialGrid3D × Rng
  | 0, g, rng => (g, rng)
  | n + 1, g, rng =>
    let (x, rng) := rng.range 0 width
    let (y, rng) := rng.range 0 height
    let (z, rng) := rng.range 0 depth
    let (vel_x, rng) := rng.range (-0.2) 0.2
    let (vel_y, rng) := rng.range (-0.2) 0.2
    let (vel_z, rng) := rng.range (-0.2) 0.2
    spawnSalt width height depth n
      (g.insert (Molecule.new .Salt ⟨x, y, z⟩ ⟨vel_x, vel_y, vel_z⟩)).2 rng

/-- SimulationState::add_salt: no-op when the flag is already set,
otherwise spawn saltAmount entities and set the flag. -/
def SimulationState.add_salt (s : SimulationState) (rng : Rng) : SimulationState × Rng :=
  if s.salt_added then (s, rng)
  else
    let gr := spawnSalt s.width s.height s.depth (saltAmount s) s.grid rng
    ({ s with grid := gr.1, salt_added := true }, gr.2)

/-- The yeast amount computed by add_yeast. -/
def yeastAmount (s : SimulationState) : ℕ :=
  (⌊s.width * s.height * s.depth * 0.00002 * s.recipe_yeast⌋).toNat

/-- The yeast-spawning loop of add_yeast: each iteration inserts one
Yeast entity and one Sugar entity within a clamped 20-unit box around it. -/
def spawnYeast (width height depth : ℚ) : ℕ → SpatialGrid3D → Rng → SpatialGrid3D × Rng
  | 0, g, rng => (g, rng)
  | n + 1, g, rng =>
    let (x, rng) := rng.range 0 width
    let (y, rng) := rng.range 0 height
    let (z, rng) := rng.range 0 depth
    let (vel_x, rng) := rng.range (-0.1) 0.1
    let (vel_y, rng) := rng.range (-0.1) 0.1
    let (vel_z, rng) := rng.range (-0.1) 0.1
    let g := (g.insert (Molecule.new .Yeast ⟨x, y, z⟩ ⟨vel_x, vel_y, vel_z⟩)).2
    let (sugar_x, rng) := rng.range (max (x - 20) 0) (min (x + 20) width)
    let (sugar_y, rng) := rng.range (max (y - 20) 0) (min (y + 20) height)
    let (sugar_z, rng) := rng.range (max (z - 20) 0) (min (z + 20) depth)
    let (svx, rng) := rng.range (-0.1) 0.1
    let (svy, rng) := rng.range (-0.1) 0.1
    let (svz, rng) := rng.range (-0.1) 0.1
    let g := (g.insert (Molecule.new .Sugar ⟨sugar_x, sugar_y, sugar_z⟩ ⟨svx, svy, svz⟩)).2
    spawnYeast width height depth n g rng

/-- SimulationState::add_yeast: no-op when the flag is already set,
otherwise spawn yeastAmount yeast molecules (each with a companion
Sugar) and set the flag. -/
def SimulationState.add_yeast (s : SimulationState) (rng : Rng) : SimulationState × Rng :=
  if s.yeast_added then (s, rng)
  else
    let gr := spawnYeast s.width s.height s.depth (yeastAmount s) s.grid rng
    ({ s with grid := gr.1, yeast_added := true }, gr.2)

/-- An interleaving of index operations, for the id-assignment claims. -/
inductive GridOp where
  | ins (m : Molecule)
  | rem (id : ℕ)

/-- The ids returned by the insert calls of an operation sequence, in
call order. -/
def insertedIds (g : SpatialGrid3D) : List GridOp → List ℕ
  | [] => []
  | .ins m :: ops => (g.insert m).1 :: insertedIds (g.insert m).2 ops
  | .rem id :: ops => insertedIds (g.remove id) ops

/-- Number of insert operations in a sequence. -/
def countIns : List GridOp → ℕ
  | [] => 0
  | .ins _ :: ops => countIns ops + 1
  | .rem _ :: ops => countIns ops

/-- The two x-axis checks of the boundary pass (clamp at the lower wall,
then at the upper wall). -/
def boundX (width : ℚ) (m : Molecule) : Molecule :=
  let m := if m.pos.x < m.radius then
      { m with pos := { m.pos with x := m.radius },
               velocity := { m.velocity with x := -m.velocity.x * 0.8 } } else m
  if width - m.radius < m.pos.x then
      { m with pos := { m.pos with x := width - m.radius },
               velocity := { m.velocity with x := -m.velocity.x * 0.8 } } else m

/-- The two y-axis checks of the boundary pass. -/
def boundY (height : ℚ) (m : Molecule) : Molecule :=
  let m := if m.pos.y < m.radius then
      { m with pos := { m.pos with y := m.radius },
               velocity := { m.velocity with y := -m.velocity.y * 0.8 } } else m
  if height - m.radius < m.pos.y then
      { m with pos := { m.pos with y := height - m.radius },
               velocity := { m.velocity with y := -m.velocity.y * 0.8 } } else m

/-- The two z-axis checks of the boundary pass. -/
def boundZ (depth : ℚ) (m : Molecule) : Molecule :=
  let m := if m.pos.z < m.radius then
      { m with pos := { m.pos with z := m.radius },
               velocity := { m.velocity with z := -m.velocity.z * 0.8 } } else m
  if depth - m.radius < m.pos.z then
      { m with pos := { m.pos with z := depth - m.radius },
               velocity := { m.velocity with z := -m.velocity.z * 0.8 } } else m

/-- A protein entity: Gliadin or Glutenin (either thiol state). -/
def isProtein (m : Molecule) : Bool :=
  match m.mol_type with
  | .Gliadin => true
  | .Glutenin _ => true
  | _ => false

/-- A Water entity. -/
def isWater (m : Molecule) : Bool :=
  match m.mol_type with
  | .Water => true
  | _ => false

/-- A Yeast entity. -/
def isYeast (m : Molecule) : Bool :=
  match m.mol_type with
  | .Yeast => true
  | _ => false

/-- Unordered-pair equality of bonds, as a proposition. -/
def sameBondPair (a b : Bond) : Prop :=
  (a.molecule_a_id = b.molecule_a_id ∧ a.molecule_b_id = b.molecule_b_id) ∨
  (a.molecule_a_id = b.molecule_b_id ∧ a.molecule_b_id = b.molecule_a_id)

/-- The bond list holds at most one bond per unordered endpoint pair. -/
def NoDupBonds (bs : List Bond) : Prop :=
  bs.Pairwise fun a b => ¬ sameBondPair a b

/-- A 100-cube simulation holding one Water molecule at x = 14.9 (cell
(0,0,0) at cell size 15) moving right at 0.2 per second. -/
def tickBugState : SimulationState :=
  { SimulationState.new 100 100 100 with
    grid := ((SimulationState.new 100 100 100).grid.insert
      (Molecule.new .Water ⟨14.9, 5, 5⟩ ⟨0.2, 0, 0⟩)).2 }

/-- Well-formedness of the spatial index: keys are distinct, each stored
molecule carries its key as id, ids are below next_id, and each id is
registered in the bucket of the cell of its current position. -/
def GridInv (g : SpatialGrid3D) : Prop :=
  (g.molecules.map Prod.fst).Nodup ∧
  ∀ p ∈ g.molecules, p.2.id = p.1 ∧ p.1 < g.next_id ∧
    p.1 ∈ g.grid (g.get_cell_coords p.2.pos)

/-- The per-tick re-bucketing loop. -/
def rebucketFold (l : List (ℕ × Vec3)) (g : SpatialGrid3D) : SpatialGrid3D :=
  l.foldl (fun gg ip => gg.update_molecule_pos ip.1 ip.2) g

/-- The states reachable through the public command API of
SimulationState together with the raw index operations. -/
inductive Reachable : SimulationState → Prop where
  | base (width height depth : ℚ) : Reachable (SimulationState.new width height depth)
  | init_recipe (s : SimulationState) (rng : Rng) :
      Reachable s → Reachable (s.initialize_classic_recipe rng).1
  | salt (s : SimulationState) (rng : Rng) : Reachable s → Reachable (s.add_salt rng).1
  | yeast (s : SimulationState) (rng : Rng) : Reachable s → Reachable (s.add_yeast rng).1
  | force (s : SimulationState) (mag : Vec3 → ℚ) (center : Vec3) (radius : ℚ)
      (force : Vec3) : Reachable s →
      Reachable (s.apply_force_to_region mag center radius force)
  | tick (s : SimulationState) (mag : Vec3 → ℚ) (dt : ℚ) (rng : Rng) :
      Reachable s → Reachable (s.tick mag dt rng).1
  | gins (s : SimulationState) (m : Molecule) :
      Reachable s → Reachable { s with grid := (s.grid.insert m).2 }
  | grem (s : SimulationState) (i : ℕ) :
      Reachable s → Reachable { s with grid := s.grid.remove i }
  | gupd (s : SimulationState) (i : ℕ) (pos : Vec3) :
      Reachable s → Reachable { s with grid := s.grid.update_molecule_pos i pos }

/-- The id belongs to a live reactive Glutenin (free thiol). -/
def isReactive (g : SpatialGrid3D) (i : ℕ) : Prop :=
  ∃ m, g.get_molecule i = some m ∧ m.mol_type = .Glutenin true

/-- Invariant of the bond scan: the mol_ids_to_update vector is exactly
the concatenated endpoint pairs of the candidate bonds, and every
candidate joins two currently reactive glutenins. -/
def ScanInvariant (g : SpatialGrid3D) (acc : ScanAcc) : Prop :=
  acc.mol_ids_to_update =
    acc.new_bonds.flatMap (fun b => [b.molecule_a_id, b.molecule_b_id]) ∧
  ∀ b ∈ acc.new_bonds, isReactive g b.molecule_a_id ∧ isReactive g b.molecule_b_id

/-- A fresh 100-cube state holding two reactive glutenins one unit
apart (within the 8.0 reaction distance, same cell). -/
def glutenin2State : SimulationState :=
  { SimulationState.new 100 100 100 with
    grid := (((SimulationState.new 100 100 100).grid.insert
      (Molecule.new (.Glutenin true) ⟨1, 1, 1⟩ ⟨0, 0, 0⟩)).2.insert
      (Molecule.new (.Glutenin true) ⟨2, 1, 1⟩ ⟨0, 0, 0⟩)).2 }

theorem remove_next_id (g : SpatialGrid3D) (id : ℕ) :
    (g.remove id).next_id = g.next_id := by
  unfold SpatialGrid3D.remove
  cases g.get_molecule id <;> rfl

theorem insertedIds_eq_range' (ops : List GridOp) : ∀ g : SpatialGrid3D,
    insertedIds g ops = List.range' g.next_id (countIns ops) := by
  induction ops with
  | nil => intro g; rfl
  | cons op ops ih =>
    intro g
    cases op with
    | ins m =>
      show (g.insert m).1 :: insertedIds (g.insert m).2 ops = _
      rw [ih]
      show g.next_id :: List.range' (g.next_id + 1) (countIns ops) =
        List.range' g.next_id (countIns ops + 1)
      rw [List.range'_succ]
    | rem id =>
      show insertedIds (g.remove id) ops = _
      rw [ih, remove_next_id]
      rfl

/-- C6: SimulationState::new produces salt_added = true and
yeast_added = false, and since add_salt is guarded by the flag, calling
add_salt on a freshly constructed state is a no-op: it inserts nothing
and returns the state (and random stream) unchanged. -/
theorem new_state_salt_flag_asymmetry (width height depth : ℚ) (rng : Rng) :
    (SimulationState.new width height depth).salt_added = true ∧
    (SimulationState.new width height depth).yeast_added = false ∧
    (SimulationState.new width height depth).add_salt rng =
      (SimulationState.new width height depth, rng) := by
  refine ⟨rfl, rfl, ?_⟩
  simp [SimulationState.add_salt, SimulationState.new]

/-- C8: for any interleaving of insert and remove operations on a fresh
SpatialGrid3D, the ids returned by the inserts are exactly 1, 2, ..., N
(N the number of inserts): strictly increasing, distinct, starting at 1,
and never reused regardless of intervening removals. -/
theorem insert_ids_sequential (width height depth cell_size : ℚ) (ops : List GridOp) :
    insertedIds (SpatialGrid3D.new width height depth cell_size) ops =
      List.range' 1 (countIns ops) ∧
    (insertedIds (SpatialGrid3D.new width height depth cell_size) ops).Pairwise (· < ·) ∧
    (insertedIds (SpatialGrid3D.new width height depth cell_size) ops).Nodup := by
  have h := insertedIds_eq_range' ops (SpatialGrid3D.new width height depth cell_size)
  have hlt : (List.range' 1 (countIns ops)).Pairwise (· < ·) := by
    have := List.pairwise_lt_range' 1 (countIns ops)
    simpa using this
  refine ⟨h, ?_, ?_⟩
  · rw [h]; exact hlt
  · rw [h]; exact hlt.imp (fun hab => Nat.ne_of_lt hab)

/-- C10: the bond-constraint solver is total on every bond list and
never mutates it; a bond with a missing endpoint contributes no
correction to the force accumulator and stays in the bond list; a bond
whose endpoints sit at the same position (zero distance) contributes no
correction either, because the positive-distance guard rejects it. -/
theorem bond_constraints_totality (mag : Vec3 → ℚ) (s : SimulationState)
    (hmag : mag ⟨0, 0, 0⟩ = 0) :
    (s.apply_bond_constraints mag).bonds = s.bonds ∧
    (∀ forces bond, (s.grid.get_molecule bond.molecule_a_id = none ∨
        s.grid.get_molecule bond.molecule_b_id = none) →
      accumBond mag s.grid forces bond = forces) ∧
    (∀ forces bond mol_a mol_b,
      s.grid.get_molecule bond.molecule_a_id = some mol_a →
      s.grid.get_molecule bond.molecule_b_id = some mol_b →
      mol_a.pos = mol_b.pos →
      accumBond mag s.grid forces bond = forces) := by
  refine ⟨rfl, ?_, ?_⟩
  · intro forces bond h
    rcases h with h | h
    · unfold accumBond
      rw [h]
    · unfold accumBond
      rw [h]
      cases s.grid.get_molecule bond.molecule_a_id <;> rfl
  · intro forces bond mol_a mol_b ha hb hpos
    unfold accumBond
    rw [ha, hb]
    have hdiff : mol_b.pos - mol_a.pos = (⟨0, 0, 0⟩ : Vec3) := by
      rw [hpos]
      show Vec3.sub _ _ = _
      simp [Vec3.sub]
    simp only [hdiff, hmag, lt_self_iff_false, if_false]

/-- Witness for C10 at a concrete magnitude function and state. -/
theorem bond_constraints_totality_witness :
    ((SimulationState.new 10 10 10).apply_bond_constraints magL1).bonds =
      (SimulationState.new 10 10 10).bonds ∧
    (∀ forces bond, ((SimulationState.new 10 10 10).grid.get_molecule bond.molecule_a_id = none ∨
        (SimulationState.new 10 10 10).grid.get_molecule bond.molecule_b_id = none) →
      accumBond magL1 (SimulationState.new 10 10 10).grid forces bond = forces) ∧
    (∀ forces bond mol_a mol_b,
      (SimulationState.new 10 10 10).grid.get_molecule bond.molecule_a_id = some mol_a →
      (SimulationState.new 10 10 10).grid.get_molecule bond.molecule_b_id = some mol_b →
      mol_a.pos = mol_b.pos →
      accumBond magL1 (SimulationState.new 10 10 10).grid forces bond = forces) :=
  bond_constraints_totality magL1 (SimulationState.new 10 10 10) (by norm_num [magL1])

theorem radius_update_pv (m : Molecule) (p v : Vec3) :
    Molecule.radius { m with pos := p, velocity := v } = m.radius := rfl

theorem radius_update_p (m : Molecule) (p : Vec3) :
    Molecule.radius { m with pos := p } = m.radius := rfl

theorem moveMol_velocity (dt : ℚ) (m : Molecule) :
    (moveMol dt m).velocity = m.velocity := rfl

theorem moveMol_radius (dt : ℚ) (m : Molecule) :
    (moveMol dt m).radius = m.radius := rfl

/-- The six sequential checks of boundMol are the three axis phases in
source order. -/
theorem boundMol_eq_phases (width height depth : ℚ) (m : Molecule) :
    boundMol width height depth m = boundZ depth (boundY height (boundX width m)) := rfl

theorem boundX_keeps (width : ℚ) (m : Molecule) :
    (boundX width m).pos.y = m.pos.y ∧ (boundX width m).pos.z = m.pos.z ∧
    (boundX width m).velocity.y = m.velocity.y ∧
    (boundX width m).velocity.z = m.velocity.z ∧
    (boundX width m).radius = m.radius := by
  unfold boundX
  by_cases h1 : m.pos.x < m.radius <;>
    simp only [if_pos, if_neg, h1, ite_true, ite_false, radius_update_pv] <;>
    split <;> exact ⟨rfl, rfl, rfl, rfl, rfl⟩

theorem boundY_keeps (height : ℚ) (m : Molecule) :
    (boundY height m).pos.x = m.pos.x ∧ (boundY height m).pos.z = m.pos.z ∧
    (boundY height m).velocity.x = m.velocity.x ∧
    (boundY height m).velocity.z = m.velocity.z ∧
    (boundY height m).radius = m.radius := by
  unfold boundY
  by_cases h1 : m.pos.y < m.radius <;>
    simp only [if_pos, if_neg, h1, ite_true, ite_false, radius_update_pv] <;>
    split <;> exact ⟨rfl, rfl, rfl, rfl, rfl⟩

theorem boundZ_keeps (depth : ℚ) (m : Molecule) :
    (boundZ depth m).pos.x = m.pos.x ∧ (boundZ depth m).pos.y = m.pos.y ∧
    (boundZ depth m).velocity.x = m.velocity.x ∧
    (boundZ depth m).velocity.y = m.velocity.y ∧
    (boundZ depth m).radius = m.radius := by
  unfold boundZ
  by_cases h1 : m.pos.z < m.radius <;>
    simp only [if_pos, if_neg, h1, ite_true, ite_false, radius_update_pv] <;>
    split <;> exact ⟨rfl, rfl, rfl, rfl, rfl⟩

theorem boundX_spec (width : ℚ) (m : Molecule) (hw : 2 * m.radius ≤ width) :
    (m.radius ≤ (boundX width m).pos.x ∧ (boundX width m).pos.x ≤ width - m.radius) ∧
    (m.pos.x < m.radius → (boundX width m).velocity.x = -m.velocity.x * 0.8) ∧
    (width - m.radius < m.pos.x → (boundX width m).velocity.x = -m.velocity.x * 0.8) := by
  unfold boundX
  split_ifs <;> simp_all only [radius_update_pv] <;> (try split_ifs) <;>
    refine ⟨⟨?_, ?_⟩, fun hc => ?_, fun hc => ?_⟩ <;> simp_all <;> try linarith

theorem boundY_spec (height : ℚ) (m : Molecule) (hh : 2 * m.radius ≤ height) :
    (m.radius ≤ (boundY height m).pos.y ∧ (boundY height m).pos.y ≤ height - m.radius) ∧
    (m.pos.y < m.radius → (boundY height m).velocity.y = -m.velocity.y * 0.8) ∧
    (height - m.radius < m.pos.y → (boundY height m).velocity.y = -m.velocity.y * 0.8) := by
  unfold boundY
  split_ifs <;> simp_all only [radius_update_pv] <;> (try split_ifs) <;>
    refine ⟨⟨?_, ?_⟩, fun hc => ?_, fun hc => ?_⟩ <;> simp_all <;> try linarith

theorem boundZ_spec (depth : ℚ) (m : Molecule) (hd : 2 * m.radius ≤ depth) :
    (m.radius ≤ (boundZ depth m).pos.z ∧ (boundZ depth m).pos.z ≤ depth - m.radius) ∧
    (m.pos.z < m.radius → (boundZ depth m).velocity.z = -m.velocity.z * 0.8) ∧
    (depth - m.radius < m.pos.z → (boundZ depth m).velocity.z = -m.velocity.z * 0.8) := by
  unfold boundZ
  split_ifs <;> simp_all only [radius_update_pv] <;> (try split_ifs) <;>
    refine ⟨⟨?_, ?_⟩, fun hc => ?_, fun hc => ?_⟩ <;> simp_all <;> try linarith

theorem frictionMol_pos (m : Molecule) : (frictionMol m).pos = m.pos := rfl

/-- C2: after the boundary-resolution phase of the per-tick physics
update (position integration followed by the six wall checks), every
processed molecule's position components lie in
[radius, dimension - radius] per axis, provided each dimension is at
least twice the molecule's radius; and a molecule whose velocity points
outward at a crossed wall gets that axis's velocity negated and scaled
by exactly the 0.8 restitution factor.  The friction step that follows
does not move the position again. -/
theorem tick_boundary_containment_reflection (width height depth dt : ℚ) (m : Molecule)
    (hw : 2 * m.radius ≤ width) (hh : 2 * m.radius ≤ height) (hd : 2 * m.radius ≤ depth) :
    (m.radius ≤ (boundMol width height depth (moveMol dt m)).pos.x ∧
     (boundMol width height depth (moveMol dt m)).pos.x ≤ width - m.radius ∧
     m.radius ≤ (boundMol width height depth (moveMol dt m)).pos.y ∧
     (boundMol width height depth (moveMol dt m)).pos.y ≤ height - m.radius ∧
     m.radius ≤ (boundMol width height depth (moveMol dt m)).pos.z ∧
     (boundMol width height depth (moveMol dt m)).pos.z ≤ depth - m.radius) ∧
    ((moveMol dt m).pos.x < m.radius ∧ m.velocity.x < 0 →
      (boundMol width height depth (moveMol dt m)).velocity.x = -m.velocity.x * 0.8) ∧
    (width - m.radius < (moveMol dt m).pos.x ∧ 0 < m.velocity.x →
      (boundMol width height depth (moveMol dt m)).velocity.x = -m.velocity.x * 0.8) ∧
    ((moveMol dt m).pos.y < m.radius ∧ m.velocity.y < 0 →
      (boundMol width height depth (moveMol dt m)).velocity.y = -m.velocity.y * 0.8) ∧
    (height - m.radius < (moveMol dt m).pos.y ∧ 0 < m.velocity.y →
      (boundMol width height depth (moveMol dt m)).velocity.y = -m.velocity.y * 0.8) ∧
    ((moveMol dt m).pos.z < m.radius ∧ m.velocity.z < 0 →
      (boundMol width height depth (moveMol dt m)).velocity.z = -m.velocity.z * 0.8) ∧
    (depth - m.radius < (moveMol dt m).pos.z ∧ 0 < m.velocity.z →
      (boundMol width height depth (moveMol dt m)).velocity.z = -m.velocity.z * 0.8) ∧
    (integrateMol width height depth dt m).pos =
      (boundMol width height depth (moveMol dt m)).pos := by
  have hXkeep := boundX_keeps width (moveMol dt m)
  have hYkeep := boundY_keeps height (boundX width (moveMol dt m))
  have hZkeep := boundZ_keeps depth (boundY height (boundX width (moveMol dt m)))
  have hX := boundX_spec width (moveMol dt m) (by rw [moveMol_radius]; exact hw)
  have hY := boundY_spec height (boundX width (moveMol dt m))
    (by rw [hXkeep.2.2.2.2, moveMol_radius]; exact hh)
  have hZ := boundZ_spec depth (boundY height (boundX width (moveMol dt m)))
    (by rw [hYkeep.2.2.2.2, hXkeep.2.2.2.2, moveMol_radius]; exact hd)
  rw [boundMol_eq_phases]
  refine ⟨⟨?_, ?_, ?_, ?_, ?_, ?_⟩, ?_, ?_, ?_, ?_, ?_, ?_, rfl⟩
  · have h := hX.1.1
    rw [moveMol_radius] at h
    rw [hZkeep.1, hYkeep.1]
    exact h
  · have h := hX.1.2
    rw [moveMol_radius] at h
    rw [hZkeep.1, hYkeep.1]
    exact h
  · have h := hY.1.1
    rw [hXkeep.2.2.2.2, moveMol_radius] at h
    rw [hZkeep.2.1]
    exact h
  · have h := hY.1.2
    rw [hXkeep.2.2.2.2, moveMol_radius] at h
    rw [hZkeep.2.1]
    exact h
  · have h := hZ.1.1
    rw [hYkeep.2.2.2.2, hXkeep.2.2.2.2, moveMol_radius] at h
    exact h
  · have h := hZ.1.2
    rw [hYkeep.2.2.2.2, hXkeep.2.2.2.2, moveMol_radius] at h
    exact h
  · intro hc
    have h := hX.2.1 (by rw [moveMol_radius]; exact hc.1)
    rw [hZkeep.2.2.1, hYkeep.2.2.1]
    exact h
  · intro hc
    have h := hX.2.2 (by rw [moveMol_radius]; exact hc.1)
    rw [hZkeep.2.2.1, hYkeep.2.2.1]
    exact h
  · intro hc
    have h := hY.2.1 (by
      rw [hXkeep.2.2.2.2, moveMol_radius, hXkeep.1]
      exact hc.1)
    rw [hXkeep.2.2.1] at h
    rw [hZkeep.2.2.2.1]
    exact h
  · intro hc
    have h := hY.2.2 (by
      rw [hXkeep.2.2.2.2, hXkeep.1]
      rw [moveMol_radius]
      exact hc.1)
    rw [hXkeep.2.2.1] at h
    rw [hZkeep.2.2.2.1]
    exact h
  · intro hc
    have h := hZ.2.1 (by
      rw [hYkeep.2.2.2.2, hXkeep.2.2.2.2, moveMol_radius, hYkeep.2.1, hXkeep.2.1]
      exact hc.1)
    rw [hYkeep.2.2.2.1, hXkeep.2.2.2.1] at h
    exact h
  · intro hc
    have h := hZ.2.2 (by
      rw [hYkeep.2.2.2.2, hXkeep.2.2.2.2, moveMol_radius, hYkeep.2.1, hXkeep.2.1]
      exact hc.1)
    rw [hYkeep.2.2.2.1, hXkeep.2.2.2.1] at h
    exact h

/-- Witness for C2: a Water molecule (radius 1.5) in a 10-cube moving
left across the lower x wall; containment holds and the x velocity is
reflected with the 0.8 factor. -/
theorem tick_boundary_containment_reflection_witness :
    ((1.5 : ℚ) ≤
        (boundMol 10 10 10 (moveMol 1 ⟨7, ⟨0.5, 5, 5⟩, ⟨-1, 0, 0⟩, .Water⟩)).pos.x ∧
      (boundMol 10 10 10 (moveMol 1 ⟨7, ⟨0.5, 5, 5⟩, ⟨-1, 0, 0⟩, .Water⟩)).pos.x ≤
        10 - 1.5) ∧
    (boundMol 10 10 10 (moveMol 1 ⟨7, ⟨0.5, 5, 5⟩, ⟨-1, 0, 0⟩, .Water⟩)).velocity.x =
      -(-1 : ℚ) * 0.8 := by
  have h := tick_boundary_containment_reflection 10 10 10 1
    ⟨7, ⟨0.5, 5, 5⟩, ⟨-1, 0, 0⟩, .Water⟩
    (by norm_num [Molecule.radius]) (by norm_num [Molecule.radius])
    (by norm_num [Molecule.radius])
  refine ⟨⟨h.1.1, h.1.2.1⟩, h.2.1 ⟨?_, ?_⟩⟩
  · show (0.5 + -1 * 1 : ℚ) < 1.5
    norm_num
  · show (-1 : ℚ) < 0
    norm_num

theorem insert_molecules_eq (g : SpatialGrid3D) (m : Molecule) :
    ((g.insert m).2).molecules = g.molecules ++ [(g.next_id, { m with id := g.next_id })] := rfl

theorem spawnProteins_step (width height depth : ℚ) (n : ℕ) (g : SpatialGrid3D)
    (rng : Rng) :
    ∃ (mol : Molecule) (rng' : Rng),
      spawnProteins width height depth (n + 1) g rng =
        spawnProteins width height depth n (g.insert mol).2 rng' ∧
      (mol.mol_type = .Gliadin ∨ mol.mol_type = .Glutenin true) := by
  refine ⟨_, _, rfl, ?_⟩
  simp only [Molecule.new]
  split
  · exact Or.inl rfl
  · exact Or.inr rfl

theorem spawnWater_step (width height depth : ℚ) (n : ℕ) (g : SpatialGrid3D)
    (rng : Rng) :
    ∃ (mol : Molecule) (rng' : Rng),
      spawnWater width height depth (n + 1) g rng =
        spawnWater width height depth n (g.insert mol).2 rng' ∧
      mol.mol_type = .Water :=
  ⟨_, _, rfl, rfl⟩

theorem spawnSalt_step (width height depth : ℚ) (n : ℕ) (g : SpatialGrid3D)
    (rng : Rng) :
    ∃ (mol : Molecule) (rng' : Rng),
      spawnSalt width height depth (n + 1) g rng =
        spawnSalt width height depth n (g.insert mol).2 rng' ∧
      mol.mol_type = .Salt :=
  ⟨_, _, rfl, rfl⟩

theorem spawnYeast_step (width height depth : ℚ) (n : ℕ) (g : SpatialGrid3D)
    (rng : Rng) :
    ∃ (mol1 mol2 : Molecule) (rng' : Rng),
      spawnYeast width height depth (n + 1) g rng =
        spawnYeast width height depth n (((g.insert mol1).2.insert mol2).2) rng' ∧
      mol1.mol_type = .Yeast ∧ mol2.mol_type = .Sugar :=
  ⟨_, _, _, rfl, rfl, rfl⟩

theorem spawnProteins_counts (width height depth : ℚ) (n : ℕ) :
    ∀ (g : SpatialGrid3D) (rng : Rng),
      (spawnProteins width height depth n g rng).1.molecules.length =
        g.molecules.length + n ∧
      (spawnProteins width height depth n g rng).1.molecules.countP
          (fun p => isProtein p.2) =
        g.molecules.countP (fun p => isProtein p.2) + n ∧
      (spawnProteins width height depth n g rng).1.molecules.countP
          (fun p => isWater p.2) =
        g.molecules.countP (fun p => isWater p.2) ∧
      ∀ p ∈ (spawnProteins width height depth n g rng).1.molecules,
        p ∈ g.molecules ∨ p.2.mol_type = .Gliadin ∨ p.2.mol_type = .Glutenin true := by
  induction n with
  | zero =>
    intro g rng
    exact ⟨rfl, rfl, rfl, fun p hp => Or.inl hp⟩
  | succ n ih =>
    intro g rng
    obtain ⟨M, R, heq, hM⟩ := spawnProteins_step width height depth n g rng
    rw [heq]
    obtain ⟨h1, h2, h3, h4⟩ := ih (g.insert M).2 R
    have hmols : ((g.insert M).2).molecules =
      g.molecules ++ [(g.next_id, { M with id := g.next_id })] := rfl
    have hprot : isProtein { M with id := g.next_id } = true := by
      rcases hM with h | h <;> simp [isProtein, h]
    have hwat : isWater { M with id := g.next_id } = false := by
      rcases hM with h | h <;> simp [isWater, h]
    refine ⟨?_, ?_, ?_, ?_⟩
    · rw [h1, hmols]
      simp
      omega
    · rw [h2, hmols, List.countP_append]
      simp [hprot]
      omega
    · rw [h3, hmols, List.countP_append]
      simp [hwat]
    · intro p hp
      rcases h4 p hp with hin | hty
      · rw [hmols] at hin
        rcases List.mem_append.mp hin with h | h
        · exact Or.inl h
        · have hp2 : p = (g.next_id, { M with id := g.next_id }) := by simpa using h
          rcases hM with hg | hg
        
          · exact Or.inr (Or.inl (by rw [hp2]; exact hg))
          · exact Or.inr (Or.inr (by rw [hp2]; exact hg))
      · exact Or.inr hty

theorem spawnWater_counts (width height depth : ℚ) (n : ℕ) :
    ∀ (g : SpatialGrid3D) (rng : Rng),
      (spawnWater width height depth n g rng).1.molecules.length =
        g.molecules.length + n ∧
      (spawnWater width height depth n g rng).1.molecules.countP
          (fun p => isWater p.2) =
        g.molecules.countP (fun p => isWater p.2) + n ∧
      (spawnWater width height depth n g rng).1.molecules.countP
          (fun p => isProtein p.2) =
        g.molecules.countP (fun p => isProtein p.2) ∧
      ∀ p ∈ (spawnWater width height depth n g rng).1.molecules,
        p ∈ g.molecules ∨ p.2.mol_type = .Water := by
  induction n with
  | zero =>
    intro g rng
    exact ⟨rfl, rfl, rfl, fun p hp => Or.inl hp⟩
  | succ n ih =>
    intro g rng
    obtain ⟨M, R, heq, hM⟩ := spawnWater_step width height depth n g rng
    rw [heq]
    obtain ⟨h1, h2, h3, h4⟩ := ih (g.insert M).2 R
    have hmols : ((g.insert M).2).molecules =
      g.molecules ++ [(g.next_id, { M with id := g.next_id })] := rfl
    have hwat : isWater { M with id := g.next_id } = true := by simp [isWater, hM]
    have hprot : isProtein { M with id := g.next_id } = false := by simp [isProtein, hM]
    refine ⟨?_, ?_, ?_, ?_⟩
    · rw [h1, hmols]
      simp
      omega
    · rw [h2, hmols, List.countP_append]
      simp [hwat]
      omega
    · rw [h3, hmols, List.countP_append]
      simp [hprot]
    · intro p hp
      rcases h4 p hp with hin | hty
      · rw [hmols] at hin
        rcases List.mem_append.mp hin with h | h
        · exact Or.inl h
        · have hp2 : p = (g.next_id, { M with id := g.next_id }) := by simpa using h
          exact Or.inr (by rw [hp2]; exact hM)
      · exact Or.inr hty

theorem spawnSalt_counts (width height depth : ℚ) (n : ℕ) :
    ∀ (g : SpatialGrid3D) (rng : Rng),
      (spawnSalt width height depth n g rng).1.molecules.length =
        g.molecules.length + n := by
  induction n with
  | zero => intro g rng; rfl
  | succ n ih =>
    intro g rng
    obtain ⟨M, R, heq, _⟩ := spawnSalt_step width height depth n g rng
    rw [heq, ih]
    have hmols : ((g.insert M).2).molecules =
      g.molecules ++ [(g.next_id, { M with id := g.next_id })] := rfl
    rw [hmols]
    simp
    omega

theorem spawnYeast_counts (width height depth : ℚ) (n : ℕ) :
    ∀ (g : SpatialGrid3D) (rng : Rng),
      (spawnYeast width height depth n g rng).1.molecules.length =
        g.molecules.length + 2 * n ∧
      (spawnYeast width height depth n g rng).1.molecules.countP
          (fun p => isYeast p.2) =
        g.molecules.countP (fun p => isYeast p.2) + n := by
  induction n with
  | zero => intro g rng; exact ⟨rfl, rfl⟩
  | succ n ih =>
    intro g rng
    obtain ⟨M1, M2, R, heq, hM1, hM2⟩ := spawnYeast_step width height depth n g rng
    rw [heq]
    obtain ⟨h1, h2⟩ := ih ((g.insert M1).2.insert M2).2 R
    have hmols : (((g.insert M1).2.insert M2).2).molecules =
      g.molecules ++ [(g.next_id, { M1 with id := g.next_id })] ++
        [(g.next_id + 1, { M2 with id := g.next_id + 1 })] := rfl
    have hy1 : isYeast { M1 with id := g.next_id } = true := by simp [isYeast, hM1]
    have hy2 : isYeast { M2 with id := g.next_id + 1 } = false := by simp [isYeast, hM2]
    constructor
    · rw [h1, hmols]
      simp
      omega
    · rw [h2, hmols, List.countP_append, List.countP_append]
      simp [hy1, hy2]
      omega

theorem get_all_countP (g : SpatialGrid3D) (p : Molecule → Bool) :
    g.get_all_molecules.countP p = g.molecules.countP (fun q => p q.2) := by
  simp [SpatialGrid3D.get_all_molecules, List.countP_map]
  rfl

theorem get_all_length (g : SpatialGrid3D) :
    g.get_all_molecules.length = g.molecules.length := by
  simp [SpatialGrid3D.get_all_molecules]

/-- C5: initialize_classic_recipe on any state yields an index with
exactly 200 protein entities (each of them a Gliadin or a reactive
Glutenin, the branch taken by the 0..100 draw being below 40) and
exactly 200 Water entities and nothing else (total 400), an empty bond
list, zero elapsed time, and both ingredient flags false. -/
theorem classic_recipe_bootstrap (s : SimulationState) (rng : Rng) :
    (s.initialize_classic_recipe rng).1.grid.get_all_molecules.countP isProtein = 200 ∧
    (s.initialize_classic_recipe rng).1.grid.get_all_molecules.countP isWater = 200 ∧
    (s.initialize_classic_recipe rng).1.grid.get_all_molecules.length = 400 ∧
    (∀ m ∈ (s.initialize_classic_recipe rng).1.grid.get_all_molecules,
      m.mol_type = .Gliadin ∨ m.mol_type = .Glutenin true ∨ m.mol_type = .Water) ∧
    (s.initialize_classic_recipe rng).1.bonds = [] ∧
    (s.initialize_classic_recipe rng).1.time_elapsed = 0 ∧
    (s.initialize_classic_recipe rng).1.salt_added = false ∧
    (s.initialize_classic_recipe rng).1.yeast_added = false := by
  have hgrid : (s.initialize_classic_recipe rng).1.grid =
      (spawnWater s.width s.height s.depth 200
        (spawnProteins s.width s.height s.depth 200
          (SpatialGrid3D.new s.width s.height s.depth 15) rng).1
        (spawnProteins s.width s.height s.depth 200
          (SpatialGrid3D.new s.width s.height s.depth 15) rng).2).1 := rfl
  obtain ⟨hp1, hp2, hp3, hp4⟩ := spawnProteins_counts s.width s.height s.depth 200
    (SpatialGrid3D.new s.width s.height s.depth 15) rng
  obtain ⟨hw1, hw2, hw3, hw4⟩ := spawnWater_counts s.width s.height s.depth 200
    (spawnProteins s.width s.height s.depth 200
      (SpatialGrid3D.new s.width s.height s.depth 15) rng).1
    (spawnProteins s.width s.height s.depth 200
      (SpatialGrid3D.new s.width s.height s.depth 15) rng).2
  have hnew : (SpatialGrid3D.new s.width s.height s.depth 15).molecules = [] := rfl
  refine ⟨?_, ?_, ?_, ?_, rfl, rfl, rfl, rfl⟩
  · rw [get_all_countP, hgrid, hw3, hp2, hnew]
    rfl
  · rw [get_all_countP, hgrid, hw2, hp3, hnew]
    rfl
  · rw [get_all_length, hgrid, hw1, hp1, hnew]
    rfl
  · intro m hm
    rw [hgrid] at hm
    simp only [SpatialGrid3D.get_all_molecules, List.mem_map] at hm
    obtain ⟨q, hq, hqm⟩ := hm
    rcases hw4 q hq with hin | hty
    · rcases hp4 q hin with hin2 | hty2
      · rw [hnew] at hin2
        exact absurd hin2 (List.not_mem_nil q)
      · rw [← hqm]
        rcases hty2 with h | h
        · exact Or.inl h
        · exact Or.inr (Or.inl h)
    · exact Or.inr (Or.inr (by rw [← hqm]; exact hty))

/-- C7: add_salt and add_yeast are idempotent.  From a state with the
flag false, the first add_salt call inserts exactly saltAmount entities
and sets the flag, and a second call is a no-op; from a state with the
yeast flag false, the first add_yeast call inserts yeastAmount Yeast
entities (with one companion Sugar each, so 2 * yeastAmount entities in
total) and sets the flag, and a second call is a no-op.  Each flag thus
transitions false to true exactly once. -/
theorem ingredient_addition_idempotent (s : SimulationState) (rng rng2 rng3 rng4 : Rng)
    (hs : s.salt_added = false) (hy : s.yeast_added = false) :
    ((s.add_salt rng).1.salt_added = true ∧
     (s.add_salt rng).1.grid.get_all_molecules.length =
       s.grid.get_all_molecules.length + saltAmount s ∧
     (s.add_salt rng).1.add_salt rng2 = ((s.add_salt rng).1, rng2)) ∧
    ((s.add_yeast rng3).1.yeast_added = true ∧
     (s.add_yeast rng3).1.grid.get_all_molecules.length =
       s.grid.get_all_molecules.length + 2 * yeastAmount s ∧
     (s.add_yeast rng3).1.grid.get_all_molecules.countP isYeast =
       s.grid.get_all_molecules.countP isYeast + yeastAmount s ∧
     (s.add_yeast rng3).1.add_yeast rng4 = ((s.add_yeast rng3).1, rng4)) := by
  have hsalt : s.add_salt rng =
      ({ s with grid := (spawnSalt s.width s.height s.depth (saltAmount s) s.grid rng).1,
                salt_added := true },
        (spawnSalt s.width s.height s.depth (saltAmount s) s.grid rng).2) := by
    simp [SimulationState.add_salt, hs]
  have hyeast : s.add_yeast rng3 =
      ({ s with grid := (spawnYeast s.width s.height s.depth (yeastAmount s) s.grid rng3).1,
                yeast_added := true },
        (spawnYeast s.width s.height s.depth (yeastAmount s) s.grid rng3).2) := by
    simp [SimulationState.add_yeast, hy]
  obtain ⟨hy1, hy2⟩ := spawnYeast_counts s.width s.height s.depth (yeastAmount s) s.grid rng3
  refine ⟨⟨?_, ?_, ?_⟩, ?_, ?_, ?_, ?_⟩
  · rw [hsalt]
  · rw [hsalt, get_all_length, get_all_length]
    exact spawnSalt_counts s.width s.height s.depth (saltAmount s) s.grid rng
  · rw [hsalt]
    simp [SimulationState.add_salt]
  · rw [hyeast]
  · rw [hyeast, get_all_length, get_all_length]
    exact hy1
  · rw [hyeast, get_all_countP, get_all_countP]
    exact hy2
  · rw [hyeast]
    simp [SimulationState.add_yeast]

/-- Witness for C7 at a concrete 100-cube state with both flags false
(saltAmount evaluates to 1 and yeastAmount to 4 there). -/
theorem ingredient_addition_idempotent_witness :
    ((({ SimulationState.new 100 100 100 with
          salt_added := false } : SimulationState).add_salt rngZero).1.salt_added = true ∧
     ((({ SimulationState.new 100 100 100 with
          salt_added := false } : SimulationState).add_salt rngZero).1.grid.get_all_molecules.length =
       ({ SimulationState.new 100 100 100 with
          salt_added := false } : SimulationState).grid.get_all_molecules.length +
         saltAmount { SimulationState.new 100 100 100 with salt_added := false } ∧
     ((({ SimulationState.new 100 100 100 with
          salt_added := false } : SimulationState).add_salt rngZero).1.add_salt rngZero =
       ((({ SimulationState.new 100 100 100 with
          salt_added := false } : SimulationState).add_salt rngZero).1, rngZero)))) ∧
    ((({ SimulationState.new 100 100 100 with
          salt_added := false } : SimulationState).add_yeast rngZero).1.yeast_added = true ∧
     ((({ SimulationState.new 100 100 100 with
          salt_added := false } : SimulationState).add_yeast rngZero).1.grid.get_all_molecules.length =
       ({ SimulationState.new 100 100 100 with
          salt_added := false } : SimulationState).grid.get_all_molecules.length +
         2 * yeastAmount { SimulationState.new 100 100 100 with salt_added := false } ∧
     ((({ SimulationState.new 100 100 100 with
          salt_added := false } : SimulationState).add_yeast rngZero).1.grid.get_all_molecules.countP isYeast =
       ({ SimulationState.new 100 100 100 with
          salt_added := false } : SimulationState).grid.get_all_molecules.countP isYeast +
         yeastAmount { SimulationState.new 100 100 100 with salt_added := false } ∧
     ((({ SimulationState.new 100 100 100 with
          salt_added := false } : SimulationState).add_yeast rngZero).1.add_yeast rngZero =
       ((({ SimulationState.new 100 100 100 with
          salt_added := false } : SimulationState).add_yeast rngZero).1, rngZero))))) := by
  have h := ingredient_addition_idempotent
    { SimulationState.new 100 100 100 with salt_added := false }
    rngZero rngZero rngZero rngZero rfl rfl
  exact ⟨⟨h.1.1, h.1.2.1, h.1.2.2⟩, h.2.1, h.2.2.1, h.2.2.2.1, h.2.2.2.2⟩

theorem bondSame_iff (a b : Bond) : bondSame a b = true ↔ sameBondPair a b := by
  simp [bondSame, sameBondPair]

theorem addNewBonds_nodup (new_bonds : List Bond) : ∀ bonds : List Bond,
    NoDupBonds bonds → NoDupBonds (addNewBonds bonds new_bonds) := by
  induction new_bonds with
  | nil => intro bonds h; exact h
  | cons b new ih =>
    intro bonds h
    show NoDupBonds (addNewBonds
      (if bonds.any (fun b' => bondSame b' b) then bonds else bonds ++ [b]) new)
    by_cases hany : bonds.any (fun b' => bondSame b' b) = true
    · rw [if_pos hany]
      exact ih bonds h
    · rw [if_neg hany]
      refine ih (bonds ++ [b]) ?_
      rw [NoDupBonds, List.pairwise_append]
      refine ⟨h, List.pairwise_singleton _ _, ?_⟩
      intro a ha b' hb'
      have hb'b : b' = b := by simpa using hb'
      subst hb'b
      intro hsame
      exact hany (List.any_eq_true.mpr ⟨a, ha, (bondSame_iff a b').mpr hsame⟩)

theorem apply_bond_constraints_bonds (mag : Vec3 → ℚ) (s : SimulationState) :
    (s.apply_bond_constraints mag).bonds = s.bonds := rfl

theorem handle_yeast_bonds (mag : Vec3 → ℚ) (s : SimulationState) (dt : ℚ) (rng : Rng) :
    (s.handle_yeast_activity mag dt rng).1.bonds = s.bonds := rfl

theorem handle_chemistry_bonds (mag : Vec3 → ℚ) (s : SimulationState) (dt : ℚ)
    (rng : Rng) :
    ∃ new_bonds, (s.handle_chemistry mag dt rng).1.bonds =
      addNewBonds s.bonds new_bonds := by
  refine ⟨(s.grid.get_all_molecules.foldl (scanMol mag s.grid s.temperature)
    ⟨[], [], rng⟩).new_bonds, ?_⟩
  unfold SimulationState.handle_chemistry
  by_cases hy : (s.form_disulfide_bridges mag rng).1.yeast_added = true
  · simp only [hy, if_true]
    rw [handle_yeast_bonds]
    rfl
  · simp only [hy, if_false]
    rfl

theorem tick_bonds (mag : Vec3 → ℚ) (s : SimulationState) (dt : ℚ) (rng : Rng) :
    ∃ new_bonds, (s.tick mag dt rng).1.bonds = addNewBonds s.bonds new_bonds := by
  unfold SimulationState.tick
  simp only [apply_bond_constraints_bonds]
  exact handle_chemistry_bonds mag _ dt rng

/-- C3: from any state whose bond list has no unordered-pair duplicate
(in particular any freshly constructed or reset state, whose bond list
is empty), after any number of ticks the bond list still contains at
most one bond per unordered pair of molecule ids, whatever the random
stream and the discovery order of candidate pairs. -/
theorem ticks_no_duplicate_bonds (mag : Vec3 → ℚ) (dt : ℚ) (n : ℕ)
    (s : SimulationState) (rng : Rng) (h : NoDupBonds s.bonds) :
    NoDupBonds ((ticks mag dt n (s, rng)).1.bonds) := by
  induction n generalizing s rng with
  | zero => exact h
  | succ n ih =>
    have hstep : NoDupBonds ((s.tick mag dt rng).1.bonds) := by
      obtain ⟨new, heq⟩ := tick_bonds mag s dt rng
      rw [heq]
      exact addNewBonds_nodup new s.bonds h
    have := ih (s.tick mag dt rng).1 (s.tick mag dt rng).2 hstep
    exact this

/-- Witness for C3: two ticks from a freshly constructed state. -/
theorem ticks_no_duplicate_bonds_witness :
    NoDupBonds ((ticks magL1 1 2 (SimulationState.new 100 100 100, rngZero)).1.bonds) :=
  ticks_no_duplicate_bonds magL1 1 2 (SimulationState.new 100 100 100) rngZero
    List.Pairwise.nil

theorem Vec3.add_def (a b : Vec3) : a + b = ⟨a.x + b.x, a.y + b.y, a.z + b.z⟩ := rfl

theorem Vec3.sub_def (a b : Vec3) : a - b = ⟨a.x - b.x, a.y - b.y, a.z - b.z⟩ := rfl

theorem Vec3.neg_def (a : Vec3) : -a = ⟨-a.x, -a.y, -a.z⟩ := rfl

/-- C1 (code bug in tick): with dt = 1 the molecule moves to x = 15.1,
crossing from cell (0,0,0) into cell (1,0,0).  Because tick mutates the
stored position in place before calling update_molecule_pos, the
old-cell removal inside update_molecule_pos targets the already-updated
cell, so after the tick id 1 is still registered under the stale cell
(0,0,0) in addition to the current cell (1,0,0): the entity occupies
two buckets, contradicting the exactly-one-bucket invariant. -/
theorem tick_stale_cell_registration :
    (((tickBugState.tick magL1 1 rngZero).1.grid.get_molecule 1).map Molecule.pos =
      some ⟨15.1, 5, 5⟩) ∧
    ((tickBugState.tick magL1 1 rngZero).1.grid.get_cell_coords ⟨15.1, 5, 5⟩ =
      (1, 0, 0)) ∧
    1 ∈ (tickBugState.tick magL1 1 rngZero).1.grid.grid (0, 0, 0) ∧
    1 ∈ (tickBugState.tick magL1 1 rngZero).1.grid.grid (1, 0, 0) := by
  norm_num [tickBugState, SimulationState.tick, SimulationState.new, SpatialGrid3D.new,
    SpatialGrid3D.insert, Molecule.new, integrateMol, moveMol, boundMol, frictionMol,
    Molecule.radius, Vec3.add_def, Vec3.sub_def, Vec3.scale,
    SpatialGrid3D.get_cell_coords, updCell, SpatialGrid3D.update_molecule_pos,
    SpatialGrid3D.get_molecule, SpatialGrid3D.get_all_molecules,
    SpatialGrid3D.modifyMolecule, SimulationState.handle_chemistry,
    SimulationState.form_disulfide_bridges, scanMol, addNewBonds,
    SpatialGrid3D.setThiolFalse, SimulationState.handle_yeast_activity,
    SimulationState.apply_bond_constraints, accumBond, upsertForce, List.find?]
  norm_num [Prod.ext_iff]

theorem updCell_same (g : Cell → List ℕ) (c : Cell) (f : List ℕ → List ℕ) :
    updCell g c f c = f (g c) := by
  simp [updCell]

theorem updCell_other (g : Cell → List ℕ) (c : Cell) (f : List ℕ → List ℕ)
    (c' : Cell) (h : ¬ c' = c) : updCell g c f c' = g c' := by
  simp [updCell, h]

theorem mem_updCell_append (g : Cell → List ℕ) (c : Cell) (j : ℕ) (c' : Cell)
    (h : j ∈ g c') : j ∈ updCell g c (fun l => l ++ [j']) c' := by
  by_cases hc : c' = c
  · subst hc
    rw [updCell_same]
    exact List.mem_append_left _ h
  · rw [updCell_other g c _ c' hc]
    exact h

theorem mem_updCell_filter (g : Cell → List ℕ) (c : Cell) (i j : ℕ) (c' : Cell)
    (hij : j ≠ i) (h : j ∈ g c') :
    j ∈ updCell g c (fun l => l.filter (fun k => k != i)) c' := by
  by_cases hc : c' = c
  · subst hc
    rw [updCell_same]
    exact List.mem_filter.mpr ⟨h, by simpa using hij⟩
  · rw [updCell_other g c _ c' hc]
    exact h

theorem mem_of_mem_updCell_filter (g : Cell → List ℕ) (c : Cell) (i j : ℕ) (c' : Cell)
    (h : j ∈ updCell g c (fun l => l.filter (fun k => k != i)) c') : j ∈ g c' := by
  by_cases hc : c' = c
  · subst hc
    rw [updCell_same] at h
    exact (List.mem_filter.mp h).1
  · rwa [updCell_other g c _ c' hc] at h

theorem mem_of_mem_updCell_append (g : Cell → List ℕ) (c : Cell) (i j : ℕ) (c' : Cell)
    (hij : j ≠ i) (h : j ∈ updCell g c (fun l => l ++ [i]) c') : j ∈ g c' := by
  by_cases hc : c' = c
  · subst hc
    rw [updCell_same] at h
    rcases List.mem_append.mp h with h | h
    · exact h
    · exact absurd (List.mem_singleton.mp h) hij
  · rwa [updCell_other g c _ c' hc] at h

/-- With distinct keys, finding the key of a stored entry returns
exactly that entry. -/
theorem find_assoc_eq (l : List (ℕ × Molecule)) (p : ℕ × Molecule)
    (hnd : (l.map Prod.fst).Nodup) (hp : p ∈ l) :
    (l.find? (fun q => q.1 == p.1)).map Prod.snd = some p.2 := by
  induction l with
  | nil => exact absurd hp (List.not_mem_nil p)
  | cons a l ih =>
    by_cases ha : a.1 = p.1
    · have hap : a = p := by
        rcases List.mem_cons.mp hp with h | h
        · exact h.symm
        · exfalso
          have hin : p.1 ∈ l.map Prod.fst := List.mem_map.mpr ⟨p, h, rfl⟩
          rw [← ha] at hin
          exact (List.nodup_cons.mp (by simpa using hnd)).1 hin
      rw [List.find?_cons_of_pos _ (by simpa using ha), hap]
      rfl
    · have hpl : p ∈ l := by
        rcases List.mem_cons.mp hp with h | h
        · exact absurd (congrArg Prod.fst h.symm) ha
        · exact h
      rw [List.find?_cons_of_neg _ (by simpa using ha)]
      exact ih (List.Nodup.of_cons (by simpa using hnd)) hpl

/-- With distinct keys, looking up the key of a stored entry returns
exactly that entry's molecule. -/
theorem get_molecule_eq (g : SpatialGrid3D)
    (hnd : (g.molecules.map Prod.fst).Nodup) (p : ℕ × Molecule)
    (hp : p ∈ g.molecules) : g.get_molecule p.1 = some p.2 :=
  find_assoc_eq g.molecules p hnd hp

/-- A successful lookup comes from a stored entry keyed by the id. -/
theorem get_molecule_mem (g : SpatialGrid3D) (id : ℕ) (m : Molecule)
    (h : g.get_molecule id = some m) : (id, m) ∈ g.molecules := by
  unfold SpatialGrid3D.get_molecule at h
  rcases Option.map_eq_some'.mp h with ⟨q, hq, hq2⟩
  have hqmem := List.mem_of_find?_eq_some hq
  have hqkey : q.1 = id := by
    have := List.find?_some hq
    simpa using this
  have hqeq : q = (id, m) := by
    rcases q with ⟨k, v⟩
    simp only at hqkey hq2
    rw [hqkey, hq2]
  rwa [hqeq] at hqmem

theorem GridInv_new (width height depth cell_size : ℚ) :
    GridInv (SpatialGrid3D.new width height depth cell_size) := by
  refine ⟨List.nodup_nil, ?_⟩
  intro p hp
  exact absurd hp (List.not_mem_nil p)

theorem insert_cell_coords (g : SpatialGrid3D) (m : Molecule) (pos : Vec3) :
    ((g.insert m).2).get_cell_coords pos = g.get_cell_coords pos := rfl

theorem insert_grid_eq (g : SpatialGrid3D) (m : Molecule) :
    ((g.insert m).2).grid = updCell g.grid
      (g.get_cell_coords m.pos) (fun l => l ++ [g.next_id]) := rfl

/-- Equation for update_molecule_pos in the present case. -/
theorem update_molecule_pos_some (g : SpatialGrid3D) (i : ℕ) (new_pos : Vec3)
    (mol : Molecule) (h : g.get_molecule i = some mol) :
    g.update_molecule_pos i new_pos =
      { g with
          molecules := g.molecules.map fun p =>
            if p.1 = i then (p.1, { p.2 with pos := new_pos }) else p,
          grid := updCell
            (updCell g.grid (g.get_cell_coords mol.pos) (fun l => l.filter (fun k => k != i)))
            (g.get_cell_coords new_pos) (fun l => l ++ [i]) } := by
  unfold SpatialGrid3D.update_molecule_pos
  rw [h]

/-- Equation for update_molecule_pos in the absent case. -/
theorem update_molecule_pos_none (g : SpatialGrid3D) (i : ℕ) (new_pos : Vec3)
    (h : g.get_molecule i = none) : g.update_molecule_pos i new_pos = g := by
  unfold SpatialGrid3D.update_molecule_pos
  rw [h]

theorem GridInv_insert (g : SpatialGrid3D) (m : Molecule) (h : GridInv g) :
    GridInv (g.insert m).2 := by
  obtain ⟨hnd, hmem⟩ := h
  constructor
  · rw [insert_molecules_eq]
    rw [List.map_append, List.nodup_append]
    refine ⟨hnd, List.nodup_singleton _, ?_⟩
    intro a ha hb
    have hab : a = g.next_id := by simpa using hb
    obtain ⟨p, hp, hpa⟩ := List.mem_map.mp ha
    have := (hmem p hp).2.1
    rw [hpa, hab] at this
    exact lt_irrefl _ this
  · intro p hp
    rw [insert_molecules_eq] at hp
    rw [insert_cell_coords, insert_grid_eq]
    rcases List.mem_append.mp hp with hin | hnew
    · obtain ⟨h1, h2, h3⟩ := hmem p hin
      refine ⟨h1, Nat.lt_succ_of_lt h2, ?_⟩
      exact mem_updCell_append _ _ _ _ h3
    · have hpp : p = (g.next_id, { m with id := g.next_id }) := by simpa using hnew
      subst hpp
      refine ⟨rfl, Nat.lt_succ_self _, ?_⟩
      rw [show (g.get_cell_coords ({ m with id := g.next_id } : Molecule).pos) =
        g.get_cell_coords m.pos from rfl]
      rw [updCell_same]
      exact List.mem_append_right _ (List.mem_singleton.mpr rfl)

theorem GridInv_remove (g : SpatialGrid3D) (i : ℕ) (h : GridInv g) :
    GridInv (g.remove i) := by
  obtain ⟨hnd, hmem⟩ := h
  unfold SpatialGrid3D.remove
  cases hlk : g.get_molecule i with
  | none => exact ⟨hnd, hmem⟩
  | some mol =>
    constructor
    · have hsub : (g.molecules.filter (fun p => p.1 != i)).Sublist g.molecules :=
        List.filter_sublist _
      exact hnd.sublist (hsub.map Prod.fst)
    · intro p hp
      have hpin : p ∈ g.molecules := List.mem_of_mem_filter hp
      have hpne : p.1 ≠ i := by
        have := (List.mem_filter.mp hp).2
        simpa using this
      obtain ⟨h1, h2, h3⟩ := hmem p hpin
      exact ⟨h1, h2, mem_updCell_filter _ _ _ _ _ hpne h3⟩

theorem modifyMolecule_molecules (g : SpatialGrid3D) (i : ℕ) (f : Molecule → Molecule) :
    (g.modifyMolecule i f).molecules =
      g.molecules.map (fun p => if p.1 = i then (p.1, f p.2) else p) := rfl

theorem GridInv_modify (g : SpatialGrid3D) (i : ℕ) (f : Molecule → Molecule)
    (hf : ∀ m, (f m).id = m.id ∧ (f m).pos = m.pos) (h : GridInv g) :
    GridInv (g.modifyMolecule i f) := by
  obtain ⟨hnd, hmem⟩ := h
  constructor
  · rw [modifyMolecule_molecules, List.map_map]
    have heq : (Prod.fst ∘ fun p : ℕ × Molecule => if p.1 = i then (p.1, f p.2) else p) =
        Prod.fst := by
      funext p
      by_cases hp : p.1 = i <;> simp [hp]
    rw [heq]
    exact hnd
  · intro p hp
    rw [modifyMolecule_molecules] at hp
    obtain ⟨q, hq, hqp⟩ := List.mem_map.mp hp
    obtain ⟨h1, h2, h3⟩ := hmem q hq
    by_cases hqi : q.1 = i
    · rw [if_pos hqi] at hqp
      rw [← hqp]
      refine ⟨by simpa using (hf q.2).1.trans h1, h2, ?_⟩
      show q.1 ∈ g.grid (g.get_cell_coords (f q.2).pos)
      rw [(hf q.2).2]
      exact h3
    · rw [if_neg hqi] at hqp
      rw [← hqp]
      exact ⟨h1, h2, h3⟩

theorem GridInv_update (g : SpatialGrid3D) (i : ℕ) (new_pos : Vec3) (h : GridInv g) :
    GridInv (g.update_molecule_pos i new_pos) := by
  obtain ⟨hnd, hmem⟩ := h
  cases hlk : g.get_molecule i with
  | none =>
    rw [update_molecule_pos_none g i new_pos hlk]
    exact ⟨hnd, hmem⟩
  | some mol =>
    rw [update_molecule_pos_some g i new_pos mol hlk]
    constructor
    · rw [List.map_map]
      have heq : (Prod.fst ∘ fun p : ℕ × Molecule =>
          if p.1 = i then (p.1, { p.2 with pos := new_pos }) else p) = Prod.fst := by
        funext p
        by_cases hp : p.1 = i <;> simp [hp]
      rw [heq]
      exact hnd
    · intro p hp
      obtain ⟨q, hq, hqp⟩ := List.mem_map.mp hp
      obtain ⟨h1, h2, h3⟩ := hmem q hq
      by_cases hqi : q.1 = i
      · rw [if_pos hqi] at hqp
        rw [← hqp]
        refine ⟨by simpa using h1, h2, ?_⟩
        show q.1 ∈ updCell _ (g.get_cell_coords new_pos) (fun l => l ++ [i])
          (g.get_cell_coords new_pos)
        rw [updCell_same, hqi]
        exact List.mem_append_right _ (List.mem_singleton.mpr rfl)
      · rw [if_neg hqi] at hqp
        rw [← hqp]
        exact ⟨h1, h2, mem_updCell_append _ _ _ _ (mem_updCell_filter _ _ _ _ _ hqi h3)⟩

/-- Generic foldl invariant preservation. -/
theorem foldl_preserve {α β : Type} (f : β → α → β) (P : β → Prop)
    (hf : ∀ b a, P b → P (f b a)) : ∀ (l : List α) (b : β), P b → P (l.foldl f b) := by
  intro l
  induction l with
  | nil => intro b hb; exact hb
  | cons a t ih =>
    intro b hb
    exact ih (f b a) (hf b a hb)

theorem update_cell_size (g : SpatialGrid3D) (i : ℕ) (pos : Vec3) :
    (g.update_molecule_pos i pos).cell_size = g.cell_size := by
  cases hlk : g.get_molecule i with
  | none => rw [update_molecule_pos_none g i pos hlk]
  | some mol => rw [update_molecule_pos_some g i pos mol hlk]

theorem update_next_id (g : SpatialGrid3D) (i : ℕ) (pos : Vec3) :
    (g.update_molecule_pos i pos).next_id = g.next_id := by
  cases hlk : g.get_molecule i with
  | none => rw [update_molecule_pos_none g i pos hlk]
  | some mol => rw [update_molecule_pos_some g i pos mol hlk]

theorem update_get_cell_coords (g : SpatialGrid3D) (i : ℕ) (pos v : Vec3) :
    (g.update_molecule_pos i pos).get_cell_coords v = g.get_cell_coords v := by
  unfold SpatialGrid3D.get_cell_coords
  rw [update_cell_size]

/-- Re-writing an entry's position to its current value leaves the
store unchanged (given distinct keys). -/
theorem update_same_pos_molecules (g : SpatialGrid3D) (i : ℕ) (m : Molecule)
    (hnd : (g.molecules.map Prod.fst).Nodup) (h : g.get_molecule i = some m) :
    (g.update_molecule_pos i m.pos).molecules = g.molecules := by
  rw [update_molecule_pos_some g i m.pos m h]
  show g.molecules.map (fun p => if p.1 = i then (p.1, { p.2 with pos := m.pos }) else p) =
    g.molecules
  have hcong : ∀ p ∈ g.molecules,
      (if p.1 = i then (p.1, { p.2 with pos := m.pos }) else p) = p := by
    intro p hp
    by_cases hpi : p.1 = i
    · have : g.get_molecule p.1 = some p.2 := get_molecule_eq g hnd p hp
      rw [hpi, h] at this
      have hm : p.2 = m := by
        injection this with hinj
        exact hinj.symm
      rw [if_pos hpi, ← hm]
    · rw [if_neg hpi]
  rw [List.map_congr_left hcong, List.map_id']

theorem update_mem_new (g : SpatialGrid3D) (i : ℕ) (pos : Vec3) (m : Molecule)
    (h : g.get_molecule i = some m) :
    i ∈ (g.update_molecule_pos i pos).grid (g.get_cell_coords pos) := by
  rw [update_molecule_pos_some g i pos m h]
  show i ∈ updCell _ (g.get_cell_coords pos) (fun l => l ++ [i]) (g.get_cell_coords pos)
  rw [updCell_same]
  exact List.mem_append_right _ (List.mem_singleton.mpr rfl)

theorem update_mem_iff_other (g : SpatialGrid3D) (i : ℕ) (pos : Vec3) (j : ℕ)
    (c : Cell) (hj : j ≠ i) :
    j ∈ (g.update_molecule_pos i pos).grid c ↔ j ∈ g.grid c := by
  cases hlk : g.get_molecule i with
  | none => rw [update_molecule_pos_none g i pos hlk]
  | some mol =>
    rw [update_molecule_pos_some g i pos mol hlk]
    constructor
    · intro h
      exact mem_of_mem_updCell_filter _ _ _ _ _
        (mem_of_mem_updCell_append _ _ _ _ _ hj h)
    · intro h
      exact mem_updCell_append _ _ _ _ (mem_updCell_filter _ _ _ _ _ hj h)

theorem rebucketFold_mem_other (l : List (ℕ × Vec3)) : ∀ (g : SpatialGrid3D) (j : ℕ)
    (c : Cell), (∀ ip ∈ l, ip.1 ≠ j) →
    (j ∈ (rebucketFold l g).grid c ↔ j ∈ g.grid c) := by
  induction l with
  | nil => intro g j c _; exact Iff.rfl
  | cons a t ih =>
    intro g j c hne
    have h1 := ih (g.update_molecule_pos a.1 a.2) j c
      (fun ip hip => hne ip (List.mem_cons_of_mem a hip))
    have h2 := update_mem_iff_other g a.1 a.2 j c
      (fun hja => (hne a (List.mem_cons_self a t)) (hja.symm ▸ rfl))
    exact h1.trans h2

theorem rebucketFold_spec (l : List (ℕ × Vec3)) : ∀ g : SpatialGrid3D,
    (g.molecules.map Prod.fst).Nodup →
    (∀ ip ∈ l, ∃ m, g.get_molecule ip.1 = some m ∧ m.pos = ip.2) →
    (l.map Prod.fst).Nodup →
    (rebucketFold l g).molecules = g.molecules ∧
    (rebucketFold l g).cell_size = g.cell_size ∧
    (rebucketFold l g).next_id = g.next_id ∧
    ∀ ip ∈ l, ip.1 ∈ (rebucketFold l g).grid (g.get_cell_coords ip.2) := by
  induction l with
  | nil =>
    intro g _ _ _
    exact ⟨rfl, rfl, rfl, fun ip hip => absurd hip (List.not_mem_nil ip)⟩
  | cons a t ih =>
    intro g hnd hl hlnd
    obtain ⟨m, hm, hmp⟩ := hl a (List.mem_cons_self a t)
    have hmols1 : (g.update_molecule_pos a.1 a.2).molecules = g.molecules := by
      rw [← hmp]
      exact update_same_pos_molecules g a.1 m hnd hm
    have hget1 : ∀ k, (g.update_molecule_pos a.1 a.2).get_molecule k = g.get_molecule k := by
      intro k
      unfold SpatialGrid3D.get_molecule
      rw [hmols1]
    have hnd1 : ((g.update_molecule_pos a.1 a.2).molecules.map Prod.fst).Nodup := by
      rw [hmols1]; exact hnd
    have hl1 : ∀ ip ∈ t, ∃ mm, (g.update_molecule_pos a.1 a.2).get_molecule ip.1 =
        some mm ∧ mm.pos = ip.2 := by
      intro ip hip
      rw [hget1]
      exact hl ip (List.mem_cons_of_mem a hip)
    have hlnd1 : (t.map Prod.fst).Nodup := (List.nodup_cons.mp (by simpa using hlnd)).2
    obtain ⟨ih1, ih2, ih3, ih4⟩ := ih (g.update_molecule_pos a.1 a.2) hnd1 hl1 hlnd1
    have hfold : rebucketFold (a :: t) g = rebucketFold t (g.update_molecule_pos a.1 a.2) := rfl
    refine ⟨?_, ?_, ?_, ?_⟩
    · rw [hfold, ih1, hmols1]
    · rw [hfold, ih2, update_cell_size]
    · rw [hfold, ih3, update_next_id]
    · intro ip hip
      rcases List.mem_cons.mp hip with hip1 | hipt
      · subst hip1
        rw [hfold]
        have hmem1 : ip.1 ∈ (g.update_molecule_pos ip.1 ip.2).grid
            (g.get_cell_coords ip.2) := update_mem_new g ip.1 ip.2 m hm
        have hne : ∀ q ∈ t, q.1 ≠ ip.1 := by
          intro q hq hq1
          have : ip.1 ∈ t.map Prod.fst := List.mem_map.mpr ⟨q, hq, hq1⟩
          exact (List.nodup_cons.mp (by simpa using hlnd)).1 this
        exact (rebucketFold_mem_other t (g.update_molecule_pos ip.1 ip.2)
          ip.1 (g.get_cell_coords ip.2) hne).mpr hmem1
      · rw [hfold]
        have := ih4 ip hipt
        rwa [show (g.update_molecule_pos a.1 a.2).get_cell_coords ip.2 =
          g.get_cell_coords ip.2 from update_get_cell_coords g a.1 a.2 ip.2] at this

theorem boundX_id_keep (width : ℚ) (m : Molecule) : (boundX width m).id = m.id := by
  unfold boundX
  by_cases h1 : m.pos.x < m.radius <;>
    simp only [if_pos, if_neg, h1, ite_true, ite_false, radius_update_pv] <;>
    split <;> rfl

theorem boundY_id_keep (height : ℚ) (m : Molecule) : (boundY height m).id = m.id := by
  unfold boundY
  by_cases h1 : m.pos.y < m.radius <;>
    simp only [if_pos, if_neg, h1, ite_true, ite_false, radius_update_pv] <;>
    split <;> rfl

theorem boundZ_id_keep (depth : ℚ) (m : Molecule) : (boundZ depth m).id = m.id := by
  unfold boundZ
  by_cases h1 : m.pos.z < m.radius <;>
    simp only [if_pos, if_neg, h1, ite_true, ite_false, radius_update_pv] <;>
    split <;> rfl

theorem integrateMol_id (width height depth dt : ℚ) (m : Molecule) :
    (integrateMol width height depth dt m).id = m.id := by
  show (frictionMol (boundMol width height depth (moveMol dt m))).id = m.id
  rw [show (frictionMol (boundMol width height depth (moveMol dt m))).id =
    (boundMol width height depth (moveMol dt m)).id from rfl]
  rw [boundMol_eq_phases, boundZ_id_keep, boundY_id_keep, boundX_id_keep]
  rfl

theorem clearThiol_keep (m : Molecule) :
    (clearThiol m).id = m.id ∧ (clearThiol m).pos = m.pos := by
  cases h : m.mol_type <;> simp [clearThiol, h]

theorem clampVel_keep (mag : Vec3 → ℚ) (c : ℚ) (m : Molecule) :
    (clampVel mag c m).id = m.id ∧ (clampVel mag c m).pos = m.pos := by
  unfold clampVel
  split_ifs <;> exact ⟨rfl, rfl⟩

theorem GridInv_setThiolFalse (g : SpatialGrid3D) (i : ℕ) (h : GridInv g) :
    GridInv (g.setThiolFalse i) :=
  GridInv_modify g i clearThiol clearThiol_keep h

theorem GridInv_integrate_rebucket (g : SpatialGrid3D) (width height depth dt : ℚ)
    (h : GridInv g) :
    GridInv (rebucketFold
      ((g.molecules.map (fun p => (p.1, integrateMol width height depth dt p.2))).map
        (fun p => (p.2.id, p.2.pos)))
      { g with molecules := g.molecules.map (fun p => (p.1, integrateMol width height depth dt p.2)) }) := by
  obtain ⟨hnd, hmem⟩ := h
  have hkeys : ((g.molecules.map (fun p =>
      (p.1, integrateMol width height depth dt p.2))).map Prod.fst) =
      g.molecules.map Prod.fst := by
    simp only [List.map_map]
    rfl
  have hnd' : ((g.molecules.map (fun p =>
      (p.1, integrateMol width height depth dt p.2))).map Prod.fst).Nodup := by
    rw [hkeys]; exact hnd
  have hid : ∀ p ∈ g.molecules.map (fun p => (p.1, integrateMol width height depth dt p.2)),
      p.2.id = p.1 := by
    intro p hp
    obtain ⟨q, hq, hqp⟩ := List.mem_map.mp hp
    rw [← hqp]
    show (integrateMol width height depth dt q.2).id = q.1
    rw [integrateMol_id]
    exact (hmem q hq).1
  have hlkeys : (((g.molecules.map (fun p =>
      (p.1, integrateMol width height depth dt p.2))).map
        (fun p => (p.2.id, p.2.pos))).map Prod.fst) =
      (g.molecules.map (fun p => (p.1, integrateMol width height depth dt p.2))).map
        Prod.fst := by
    simp only [List.map_map]
    refine List.map_congr_left ?_
    intro q hq
    show (integrateMol width height depth dt q.2).id = q.1
    rw [integrateMol_id]
    exact (hmem q hq).1
  have hlnd : (((g.molecules.map (fun p =>
      (p.1, integrateMol width height depth dt p.2))).map
        (fun p => (p.2.id, p.2.pos))).map Prod.fst).Nodup := by
    rw [hlkeys]; exact hnd'
  have hl : ∀ ip ∈ (g.molecules.map (fun p =>
      (p.1, integrateMol width height depth dt p.2))).map (fun p => (p.2.id, p.2.pos)),
      ∃ m, SpatialGrid3D.get_molecule { g with molecules := g.molecules.map (fun p => (p.1, integrateMol width height depth dt p.2)) } ip.1 = some m ∧
        m.pos = ip.2 := by
    intro ip hip
    obtain ⟨p, hp, hpip⟩ := List.mem_map.mp hip
    refine ⟨p.2, ?_, ?_⟩
    · have hh := get_molecule_eq { g with molecules := g.molecules.map (fun p => (p.1, integrateMol width height depth dt p.2)) } hnd' p hp
      rw [← hpip]
      rw [show ((p.2.id, p.2.pos) : ℕ × Vec3).1 = p.2.id from rfl, hid p hp]
      exact hh
    · rw [← hpip]
  obtain ⟨hm, hcs, hni, hbuckets⟩ := rebucketFold_spec _ _ hnd' hl hlnd
  constructor
  · rw [hm]
    exact hnd'
  · intro p hp
    rw [hm] at hp
    refine ⟨hid p hp, ?_, ?_⟩
    · rw [hni]
      obtain ⟨q, hq, hqp⟩ := List.mem_map.mp hp
      rw [← hqp]
      exact (hmem q hq).2.1
    · have hip : ((p.2.id, p.2.pos) : ℕ × Vec3) ∈
          (g.molecules.map (fun p => (p.1, integrateMol width height depth dt p.2))).map
            (fun p => (p.2.id, p.2.pos)) := List.mem_map.mpr ⟨p, hp, rfl⟩
      have hb := hbuckets _ hip
      rw [show ((p.2.id, p.2.pos) : ℕ × Vec3).1 = p.2.id from rfl] at hb
      rw [hid p hp] at hb
      have hcells : ∀ v : Vec3,
          SpatialGrid3D.get_cell_coords { g with molecules := g.molecules.map (fun p => (p.1, integrateMol width height depth dt p.2)) } v =
          SpatialGrid3D.get_cell_coords (rebucketFold
            ((g.molecules.map (fun p => (p.1, integrateMol width height depth dt p.2))).map
              (fun p => (p.2.id, p.2.pos)))
            { g with molecules := g.molecules.map (fun p => (p.1, integrateMol width height depth dt p.2)) }) v := by
        intro v
        unfold SpatialGrid3D.get_cell_coords
        rw [hcs]
      rw [hcells] at hb
      exact hb

theorem GridInv_form_disulfide (mag : Vec3 → ℚ) (s : SimulationState) (rng : Rng)
    (h : GridInv s.grid) : GridInv ((s.form_disulfide_bridges mag rng).1).grid := by
  show GridInv (((s.grid.get_all_molecules.foldl (scanMol mag s.grid s.temperature)
    ⟨[], [], rng⟩).mol_ids_to_update).foldl SpatialGrid3D.setThiolFalse s.grid)
  exact foldl_preserve SpatialGrid3D.setThiolFalse GridInv
    (fun g i hg => GridInv_setThiolFalse g i hg) _ s.grid h

theorem GridInv_handle_yeast (mag : Vec3 → ℚ) (s : SimulationState) (dt : ℚ) (rng : Rng)
    (h : GridInv s.grid) : GridInv ((s.handle_yeast_activity mag dt rng).1).grid := by
  unfold SimulationState.handle_yeast_activity
  simp only
  have h1 : GridInv (((s.grid.get_all_molecules.foldl
      (yeastMol mag s.grid s.temperature dt) ⟨[], [], rng⟩).new_molecules).foldl
      (fun g m => (g.insert m).2) s.grid) :=
    foldl_preserve _ GridInv (fun g m hg => GridInv_insert g m hg) _ s.grid h
  have h2 : GridInv (((s.grid.get_all_molecules.foldl
      (yeastMol mag s.grid s.temperature dt) ⟨[], [], rng⟩).consumed_sugars).foldl
      SpatialGrid3D.remove
      (((s.grid.get_all_molecules.foldl (yeastMol mag s.grid s.temperature dt)
        ⟨[], [], rng⟩).new_molecules).foldl (fun g m => (g.insert m).2) s.grid)) :=
    foldl_preserve _ GridInv (fun g i hg => GridInv_remove g i hg) _ _ h1
  refine foldl_preserve _ (fun x : SpatialGrid3D × Rng => GridInv x.1) ?_ _ _ h2
  intro b a hb
  cases ha : a.2.mol_type <;> simp only [ha] <;> try exact hb
  exact GridInv_modify b.1 a.1 _ (fun m => ⟨rfl, rfl⟩) hb

theorem GridInv_chemistry (mag : Vec3 → ℚ) (s : SimulationState) (dt : ℚ) (rng : Rng)
    (h : GridInv s.grid) : GridInv ((s.handle_chemistry mag dt rng).1).grid := by
  unfold SimulationState.handle_chemistry
  by_cases hy : (s.form_disulfide_bridges mag rng).1.yeast_added = true
  · simp only [hy, if_true]
    exact GridInv_handle_yeast mag _ dt _ (GridInv_form_disulfide mag s rng h)
  · simp only [hy, if_false]
    exact GridInv_form_disulfide mag s rng h

theorem GridInv_constraints (mag : Vec3 → ℚ) (s : SimulationState)
    (h : GridInv s.grid) : GridInv ((s.apply_bond_constraints mag).grid) := by
  show GridInv ((s.bonds.foldl (accumBond mag s.grid) []).foldl _ s.grid)
  refine foldl_preserve _ GridInv ?_ _ s.grid h
  intro g p hg
  refine GridInv_modify g p.1 _ ?_ hg
  intro m
  exact ⟨(clampVel_keep mag 3 _).1, (clampVel_keep mag 3 _).2⟩

theorem GridInv_apply_force (mag : Vec3 → ℚ) (s : SimulationState) (center : Vec3)
    (radius : ℚ) (force : Vec3) (h : GridInv s.grid) :
    GridInv ((s.apply_force_to_region mag center radius force).grid) := by
  show GridInv (List.foldl _ s.grid _)
  refine foldl_preserve _ GridInv ?_ _ s.grid h
  intro g i hg
  refine GridInv_modify g i _ ?_ hg
  intro m
  exact ⟨(clampVel_keep mag 5 _).1, (clampVel_keep mag 5 _).2⟩

theorem GridInv_tick (mag : Vec3 → ℚ) (s : SimulationState) (dt : ℚ) (rng : Rng)
    (h : GridInv s.grid) : GridInv ((s.tick mag dt rng).1).grid := by
  have hphys : GridInv (rebucketFold
      ((s.grid.molecules.map (fun p => (p.1, integrateMol s.width s.height s.depth dt p.2))).map
        (fun p => (p.2.id, p.2.pos)))
      { s.grid with molecules := s.grid.molecules.map (fun p => (p.1, integrateMol s.width s.height s.depth dt p.2)) }) :=
    GridInv_integrate_rebucket s.grid s.width s.height s.depth dt h
  exact GridInv_constraints mag _ (GridInv_chemistry mag _ dt rng hphys)

theorem GridInv_spawnProteins (width height depth : ℚ) (n : ℕ) :
    ∀ (g : SpatialGrid3D) (rng : Rng), GridInv g →
      GridInv (spawnProteins width height depth n g rng).1 := by
  induction n with
  | zero => intro g rng h; exact h
  | succ n ih =>
    intro g rng h
    obtain ⟨M, R, heq, _⟩ := spawnProteins_step width height depth n g rng
    rw [heq]
    exact ih _ R (GridInv_insert g M h)

theorem GridInv_spawnWater (width height depth : ℚ) (n : ℕ) :
    ∀ (g : SpatialGrid3D) (rng : Rng), GridInv g →
      GridInv (spawnWater width height depth n g rng).1 := by
  induction n with
  | zero => intro g rng h; exact h
  | succ n ih =>
    intro g rng h
    obtain ⟨M, R, heq, _⟩ := spawnWater_step width height depth n g rng
    rw [heq]
    exact ih _ R (GridInv_insert g M h)

theorem GridInv_spawnSalt (width height depth : ℚ) (n : ℕ) :
    ∀ (g : SpatialGrid3D) (rng : Rng), GridInv g →
      GridInv (spawnSalt width height depth n g rng).1 := by
  induction n with
  | zero => intro g rng h; exact h
  | succ n ih =>
    intro g rng h
    obtain ⟨M, R, heq, _⟩ := spawnSalt_step width height depth n g rng
    rw [heq]
    exact ih _ R (GridInv_insert g M h)

theorem GridInv_spawnYeast (width height depth : ℚ) (n : ℕ) :
    ∀ (g : SpatialGrid3D) (rng : Rng), GridInv g →
      GridInv (spawnYeast width height depth n g rng).1 := by
  induction n with
  | zero => intro g rng h; exact h
  | succ n ih =>
    intro g rng h
    obtain ⟨M1, M2, R, heq, _, _⟩ := spawnYeast_step width height depth n g rng
    rw [heq]
    exact ih _ R (GridInv_insert _ M2 (GridInv_insert g M1 h))

theorem GridInv_initialize (s : SimulationState) (rng : Rng) :
    GridInv ((s.initialize_classic_recipe rng).1).grid := by
  show GridInv (spawnWater s.width s.height s.depth 200 _ _).1
  exact GridInv_spawnWater s.width s.height s.depth 200 _ _
    (GridInv_spawnProteins s.width s.height s.depth 200 _ rng
      (GridInv_new s.width s.height s.depth 15))

theorem GridInv_add_salt (s : SimulationState) (rng : Rng) (h : GridInv s.grid) :
    GridInv ((s.add_salt rng).1).grid := by
  unfold SimulationState.add_salt
  by_cases hs : s.salt_added = true
  · simp only [hs, if_true]
    exact h
  · simp only [hs, if_false]
    exact GridInv_spawnSalt s.width s.height s.depth (saltAmount s) s.grid rng h

theorem GridInv_add_yeast (s : SimulationState) (rng : Rng) (h : GridInv s.grid) :
    GridInv ((s.add_yeast rng).1).grid := by
  unfold SimulationState.add_yeast
  by_cases hy : s.yeast_added = true
  · simp only [hy, if_true]
    exact h
  · simp only [hy, if_false]
    exact GridInv_spawnYeast s.width s.height s.depth (yeastAmount s) s.grid rng h

theorem GridInv_reachable (s : SimulationState) (h : Reachable s) : GridInv s.grid := by
  induction h with
  | base width height depth => exact GridInv_new width height depth 15
  | init_recipe s rng _ _ => exact GridInv_initialize s rng
  | salt s rng _ ih => exact GridInv_add_salt s rng ih
  | yeast s rng _ ih => exact GridInv_add_yeast s rng ih
  | force s mag center radius force _ ih => exact GridInv_apply_force mag s center radius force ih
  | tick s mag dt rng _ ih => exact GridInv_tick mag s dt rng ih
  | gins s m _ ih => exact GridInv_insert s.grid m ih
  | grem s i _ ih => exact GridInv_remove s.grid i ih
  | gupd s i pos _ ih => exact GridInv_update s.grid i pos ih

theorem center_mem_neighborCells (c : Cell) : c ∈ neighborCells c := by
  unfold neighborCells
  simp only [List.mem_flatMap, List.mem_map]
  exact ⟨0, by norm_num, 0, by norm_num, 0, by norm_num, by simp⟩

/-- Self-inclusion follows from the index invariant. -/
theorem self_mem_neighbors (g : SpatialGrid3D) (h : GridInv g) (p : ℕ × Molecule)
    (hp : p ∈ g.molecules) : p.2 ∈ g.get_neighbors p.2.pos := by
  obtain ⟨hnd, hmem⟩ := h
  obtain ⟨_, _, hbucket⟩ := hmem p hp
  unfold SpatialGrid3D.get_neighbors
  refine List.mem_flatMap.mpr ⟨g.get_cell_coords p.2.pos,
    center_mem_neighborCells _, ?_⟩
  refine List.mem_filterMap.mpr ⟨p.1, hbucket, ?_⟩
  exact get_molecule_eq g hnd p hp

/-- C9: in every reachable state, every live entity is returned by the
neighbors query at its own current position (self-inclusion of the
27-cell broad phase). -/
theorem neighbors_self_inclusion (s : SimulationState) (hre : Reachable s)
    (p : ℕ × Molecule) (hp : p ∈ s.grid.molecules) :
    p.2 ∈ s.grid.get_neighbors p.2.pos :=
  self_mem_neighbors s.grid (GridInv_reachable s hre) p hp

/-- Witness for C9: a Water molecule inserted into a fresh 100-cube
state is returned by the neighbors query at its own position. -/
theorem neighbors_self_inclusion_witness :
    ({ id := 1, pos := ⟨1, 2, 3⟩, velocity := ⟨0, 0, 0⟩,
       mol_type := .Water } : Molecule) ∈
      SpatialGrid3D.get_neighbors ({ SimulationState.new 100 100 100 with
        grid := ((SimulationState.new 100 100 100).grid.insert
          (Molecule.new .Water ⟨1, 2, 3⟩ ⟨0, 0, 0⟩)).2 } : SimulationState).grid
        ⟨1, 2, 3⟩ := by
  have h := neighbors_self_inclusion
    { SimulationState.new 100 100 100 with
        grid := ((SimulationState.new 100 100 100).grid.insert
          (Molecule.new .Water ⟨1, 2, 3⟩ ⟨0, 0, 0⟩)).2 }
    (Reachable.gins (SimulationState.new 100 100 100)
      (Molecule.new .Water ⟨1, 2, 3⟩ ⟨0, 0, 0⟩) (Reachable.base 100 100 100))
    (1, { id := 1, pos := ⟨1, 2, 3⟩, velocity := ⟨0, 0, 0⟩, mol_type := .Water })
    (List.mem_singleton.mpr rfl)
  exact h

/-- Membership-aware foldl invariant preservation. -/
theorem foldl_preserve_mem {α β : Type} (f : β → α → β) (P : β → Prop) :
    ∀ l : List α, (∀ b a, a ∈ l → P b → P (f b a)) → ∀ b, P b → P (l.foldl f b) := by
  intro l
  induction l with
  | nil => intro _ b hb; exact hb
  | cons a t ih =>
    intro hf b hb
    exact ih (fun b' a' ha' hb' => hf b' a' (List.mem_cons_of_mem a ha') hb') (f b a)
      (hf b a (List.mem_cons_self a t) hb)

/-- Every molecule produced by a neighbors query is live under its own
id (given key discipline). -/
theorem get_neighbors_lookup (g : SpatialGrid3D)
    (_hnd : (g.molecules.map Prod.fst).Nodup)
    (hid : ∀ p ∈ g.molecules, p.2.id = p.1) (pos : Vec3) (nb : Molecule)
    (hnb : nb ∈ g.get_neighbors pos) : g.get_molecule nb.id = some nb := by
  unfold SpatialGrid3D.get_neighbors at hnb
  obtain ⟨c, _, hc⟩ := List.mem_flatMap.mp hnb
  obtain ⟨k, _, hk⟩ := List.mem_filterMap.mp hc
  have hmem := get_molecule_mem g k nb hk
  have : nb.id = k := hid (k, nb) hmem
  rw [this]
  exact hk

/-- Every molecule listed by get_all_molecules is live under its own id. -/
theorem get_all_lookup (g : SpatialGrid3D)
    (hnd : (g.molecules.map Prod.fst).Nodup)
    (hid : ∀ p ∈ g.molecules, p.2.id = p.1) (mol : Molecule)
    (hmol : mol ∈ g.get_all_molecules) : g.get_molecule mol.id = some mol := by
  obtain ⟨p, hp, hpm⟩ := List.mem_map.mp hmol
  have h1 := get_molecule_eq g hnd p hp
  have h2 : mol.id = p.1 := by rw [← hpm]; exact hid p hp
  rw [h2, h1, hpm]

theorem clearThiol_idem (m : Molecule) : clearThiol (clearThiol m) = clearThiol m := by
  cases h : m.mol_type <;> simp [clearThiol, h]

theorem clearThiol_not_reactive (m : Molecule) :
    (clearThiol m).mol_type ≠ .Glutenin true := by
  cases h : m.mol_type <;> simp [clearThiol, h]

theorem find_map_clear (i k : ℕ) : ∀ l : List (ℕ × Molecule),
    ((l.map (fun p => if p.1 = i then (p.1, clearThiol p.2) else p)).find?
        (fun q => q.1 == k)).map Prod.snd =
      if k = i then ((l.find? (fun q => q.1 == k)).map Prod.snd).map clearThiol
      else (l.find? (fun q => q.1 == k)).map Prod.snd := by
  intro l
  induction l with
  | nil => by_cases hki : k = i <;> simp [hki]
  | cons a t ih =>
    by_cases hak : a.1 = k
    · by_cases hai : a.1 = i
      · have hki : k = i := by rw [← hak, hai]
        rw [List.map_cons, if_pos hai]
        rw [List.find?_cons_of_pos _ (by simpa using hak),
            List.find?_cons_of_pos _ (by simpa using hak)]
        simp [hki]
      · have hki : ¬ k = i := by rw [← hak]; exact hai
        rw [List.map_cons, if_neg hai]
        rw [List.find?_cons_of_pos _ (by simpa using hak),
            List.find?_cons_of_pos _ (by simpa using hak)]
        simp [hki]
    · by_cases hai : a.1 = i
      · rw [List.map_cons, if_pos hai]
        rw [List.find?_cons_of_neg _ (by simpa using hak),
            List.find?_cons_of_neg _ (by simpa using hak)]
        exact ih
      · rw [List.map_cons, if_neg hai]
        rw [List.find?_cons_of_neg _ (by simpa using hak),
            List.find?_cons_of_neg _ (by simpa using hak)]
        exact ih

theorem setThiol_get (g : SpatialGrid3D) (i k : ℕ) :
    (g.setThiolFalse i).get_molecule k =
      if k = i then (g.get_molecule k).map clearThiol else g.get_molecule k := by
  show ((g.molecules.map (fun p => if p.1 = i then (p.1, clearThiol p.2) else p)).find?
    (fun q => q.1 == k)).map Prod.snd = _
  exact find_map_clear i k g.molecules

theorem thiol_fold_get (ids : List ℕ) : ∀ (g : SpatialGrid3D) (k : ℕ),
    (ids.foldl SpatialGrid3D.setThiolFalse g).get_molecule k =
      if k ∈ ids then (g.get_molecule k).map clearThiol else g.get_molecule k := by
  induction ids with
  | nil =>
    intro g k
    simp
  | cons i t ih =>
    intro g k
    show (t.foldl SpatialGrid3D.setThiolFalse (g.setThiolFalse i)).get_molecule k = _
    rw [ih (g.setThiolFalse i) k, setThiol_get]
    by_cases hkt : k ∈ t
    · by_cases hki : k = i
      · rw [if_pos hkt, if_pos hki, if_pos (List.mem_cons.mpr (Or.inl hki))]
        rw [Option.map_map]
        cases hg : g.get_molecule k
        · rfl
        · simp [clearThiol_idem]
      · rw [if_pos hkt, if_neg hki, if_pos (List.mem_cons.mpr (Or.inr hkt))]
    · by_cases hki : k = i
      · rw [if_neg hkt, if_pos hki, if_pos (List.mem_cons.mpr (Or.inl hki))]
      · rw [if_neg hkt, if_neg hki,
          if_neg (fun hm => (List.mem_cons.mp hm).elim hki hkt)]

theorem scanNeighbor_inv (mag : Vec3 → ℚ) (g : SpatialGrid3D) (temperature : ℚ)
    (mol : Molecule) (hnd : (g.molecules.map Prod.fst).Nodup)
    (hidk : ∀ p ∈ g.molecules, p.2.id = p.1) (hmol : isReactive g mol.id)
    (acc : ScanAcc) (nb : Molecule) (hnb : nb ∈ g.get_neighbors mol.pos)
    (hP : ScanInvariant g acc) :
    ScanInvariant g (scanNeighbor mag g temperature mol acc nb) := by
  unfold scanNeighbor
  by_cases h1 : nb.id = mol.id
  · rw [if_pos h1]
    exact hP
  · rw [if_neg h1]
    cases hmt : nb.mol_type with
    | Glutenin b =>
      cases b with
      | false => simp only [hmt]; exact hP
      | true =>
        simp only [hmt]
        have hbond : nb.mol_type = MoleculeType.Glutenin true := hmt
        have hmain : ∀ rng' : Rng, ScanInvariant g
            ⟨acc.new_bonds ++ [⟨mol.id, nb.id, mag (mol.pos - nb.pos)⟩],
              acc.mol_ids_to_update ++ [mol.id, nb.id], rng'⟩ := by
          intro rng'
          refine ⟨?_, ?_⟩
          · show acc.mol_ids_to_update ++ [mol.id, nb.id] = _
            rw [hP.1]
            rw [show (⟨acc.new_bonds ++ [⟨mol.id, nb.id, mag (mol.pos - nb.pos)⟩],
              (acc.new_bonds.flatMap fun b => [b.molecule_a_id, b.molecule_b_id]) ++
                [mol.id, nb.id], rng'⟩ : ScanAcc).new_bonds =
              acc.new_bonds ++ [⟨mol.id, nb.id, mag (mol.pos - nb.pos)⟩] from rfl]
            rw [List.flatMap_append]
            simp
          · intro c hc
            rcases List.mem_append.mp hc with hold | hnew
            · exact hP.2 c hold
            · have hceq : c = ⟨mol.id, nb.id, mag (mol.pos - nb.pos)⟩ := by
                simpa using hnew
              subst hceq
              refine ⟨hmol, nb, ?_, hbond⟩
              exact get_neighbors_lookup g hnd hidk mol.pos nb hnb
        split_ifs with h2 h3 h4 h5
        · exact hmain _
        · exact ⟨hP.1, hP.2⟩
        · exact hmain _
        · exact ⟨hP.1, hP.2⟩
        · exact hP
    | Gliadin => simp only [hmt]; exact hP
    | Water => simp only [hmt]; exact hP
    | Yeast => simp only [hmt]; exact hP
    | CO2 => simp only [hmt]; exact hP
    | Ethanol => simp only [hmt]; exact hP
    | Sugar => simp only [hmt]; exact hP
    | Salt => simp only [hmt]; exact hP
    | Ash => simp only [hmt]; exact hP

theorem scanMol_inv (mag : Vec3 → ℚ) (g : SpatialGrid3D) (temperature : ℚ)
    (hnd : (g.molecules.map Prod.fst).Nodup)
    (hidk : ∀ p ∈ g.molecules, p.2.id = p.1) (acc : ScanAcc) (mol : Molecule)
    (hmol : mol ∈ g.get_all_molecules) (hP : ScanInvariant g acc) :
    ScanInvariant g (scanMol mag g temperature acc mol) := by
  unfold scanMol
  cases hmt : mol.mol_type with
  | Glutenin b =>
    cases b with
    | false => simp only [hmt]; exact hP
    | true =>
      simp only [hmt]
      refine foldl_preserve_mem _ (ScanInvariant g) _ ?_ acc hP
      intro acc' nb hnb hP'
      refine scanNeighbor_inv mag g temperature mol hnd hidk ?_ acc' nb hnb hP'
      exact ⟨mol, get_all_lookup g hnd hidk mol hmol, hmt⟩
  | Gliadin => simp only [hmt]; exact hP
  | Water => simp only [hmt]; exact hP
  | Yeast => simp only [hmt]; exact hP
  | CO2 => simp only [hmt]; exact hP
  | Ethanol => simp only [hmt]; exact hP
  | Sugar => simp only [hmt]; exact hP
  | Salt => simp only [hmt]; exact hP
  | Ash => simp only [hmt]; exact hP

theorem scan_inv (mag : Vec3 → ℚ) (s : SimulationState) (rng : Rng)
    (hnd : (s.grid.molecules.map Prod.fst).Nodup)
    (hidk : ∀ p ∈ s.grid.molecules, p.2.id = p.1) :
    ScanInvariant s.grid (s.grid.get_all_molecules.foldl
      (scanMol mag s.grid s.temperature) ⟨[], [], rng⟩) := by
  refine foldl_preserve_mem _ (ScanInvariant s.grid) _ ?_ _ ⟨rfl, fun b hb => absurd hb (List.not_mem_nil b)⟩
  intro acc mol hmol hP
  exact scanMol_inv mag s.grid s.temperature hnd hidk acc mol hmol hP

theorem addNewBonds_mono (new_bonds : List Bond) : ∀ (bonds : List Bond) (x : Bond),
    x ∈ bonds → x ∈ addNewBonds bonds new_bonds := by
  induction new_bonds with
  | nil => intro bonds x hx; exact hx
  | cons b t ih =>
    intro bonds x hx
    show x ∈ addNewBonds (if bonds.any (fun b' => bondSame b' b) then bonds
      else bonds ++ [b]) t
    by_cases hany : bonds.any (fun b' => bondSame b' b) = true
    · rw [if_pos hany]
      exact ih bonds x hx
    · rw [if_neg hany]
      exact ih (bonds ++ [b]) x (List.mem_append_left _ hx)

theorem addNewBonds_src (new_bonds : List Bond) : ∀ (bonds : List Bond) (x : Bond),
    x ∈ addNewBonds bonds new_bonds → x ∈ bonds ∨ x ∈ new_bonds := by
  induction new_bonds with
  | nil => intro bonds x hx; exact Or.inl hx
  | cons b t ih =>
    intro bonds x hx
    have hx' : x ∈ addNewBonds (if bonds.any (fun b' => bondSame b' b) then bonds
      else bonds ++ [b]) t := hx
    by_cases hany : bonds.any (fun b' => bondSame b' b) = true
    · rw [if_pos hany] at hx'
      rcases ih bonds x hx' with h | h
      · exact Or.inl h
      · exact Or.inr (List.mem_cons_of_mem b h)
    · rw [if_neg hany] at hx'
      rcases ih (bonds ++ [b]) x hx' with h | h
      · rcases List.mem_append.mp h with h2 | h2
        · exact Or.inl h2
        · exact Or.inr (List.mem_cons.mpr (Or.inl (List.mem_singleton.mp h2)))
      · exact Or.inr (List.mem_cons_of_mem b h)

theorem sameBondPair_refl (b : Bond) : sameBondPair b b := Or.inl ⟨rfl, rfl⟩

theorem addNewBonds_covers (new_bonds : List Bond) : ∀ (bonds : List Bond) (c : Bond),
    c ∈ new_bonds → ∃ a ∈ addNewBonds bonds new_bonds, sameBondPair a c := by
  induction new_bonds with
  | nil => intro bonds c hc; exact absurd hc (List.not_mem_nil c)
  | cons b t ih =>
    intro bonds c hc
    show ∃ a ∈ addNewBonds (if bonds.any (fun b' => bondSame b' b) then bonds
      else bonds ++ [b]) t, sameBondPair a c
    rcases List.mem_cons.mp hc with hcb | hct
    · subst hcb
      by_cases hany : bonds.any (fun b' => bondSame b' c) = true
      · rw [if_pos hany]
        obtain ⟨a, ha, hsame⟩ := List.any_eq_true.mp hany
        exact ⟨a, addNewBonds_mono t bonds a ha, (bondSame_iff a c).mp hsame⟩
      · rw [if_neg hany]
        exact ⟨c, addNewBonds_mono t (bonds ++ [c]) c
          (List.mem_append_right _ (List.mem_singleton.mpr rfl)), sameBondPair_refl c⟩
    · by_cases hany : bonds.any (fun b' => bondSame b' b) = true
      · rw [if_pos hany]
        exact ih bonds c hct
      · rw [if_neg hany]
        exact ih (bonds ++ [b]) c hct

/-- C4: during bond formation, scans read only the pre-state (the scan
accumulator is a function of the unmutated grid, so an entity accepted
into one pairing is still seen as reactive by later scans of the same
tick), and an entity's reactive flag is cleared in the tick if and only
if the entity is an endpoint of at least one newly accepted bond of
that tick.  Hypotheses: the store is key-disciplined, and no existing
bond joins two still-reactive glutenins (true of all states the
simulation produces, since both endpoints are cleared when a bond
forms). -/
theorem bond_formation_reactive_commit (mag : Vec3 → ℚ) (s : SimulationState)
    (rng : Rng) (i : ℕ)
    (hnd : (s.grid.molecules.map Prod.fst).Nodup)
    (hidk : ∀ p ∈ s.grid.molecules, p.2.id = p.1)
    (hbonds : ∀ b ∈ s.bonds,
      ¬ (isReactive s.grid b.molecule_a_id ∧ isReactive s.grid b.molecule_b_id)) :
    (isReactive s.grid i ∧
        ¬ isReactive ((s.form_disulfide_bridges mag rng).1).grid i) ↔
      ∃ b ∈ (s.form_disulfide_bridges mag rng).1.bonds, b ∉ s.bonds ∧
        (b.molecule_a_id = i ∨ b.molecule_b_id = i) := by
  have key := scan_inv mag s rng hnd hidk
  rw [show (s.form_disulfide_bridges mag rng).1 =
    { s with
        bonds := addNewBonds s.bonds (s.grid.get_all_molecules.foldl
          (scanMol mag s.grid s.temperature) ⟨[], [], rng⟩).new_bonds,
        grid := (s.grid.get_all_molecules.foldl
          (scanMol mag s.grid s.temperature)
            ⟨[], [], rng⟩).mol_ids_to_update.foldl SpatialGrid3D.setThiolFalse
          s.grid } from rfl]
  revert key
  generalize (s.grid.get_all_molecules.foldl
    (scanMol mag s.grid s.temperature) (⟨[], [], rng⟩ : ScanAcc)) = acc
  rintro ⟨hids, hreact⟩
  constructor
  · rintro ⟨hre, hnot⟩
    have hin : i ∈ acc.mol_ids_to_update := by
      by_contra hni
      apply hnot
      obtain ⟨m, hm, hty⟩ := hre
      refine ⟨m, ?_, hty⟩
      show SpatialGrid3D.get_molecule
        (acc.mol_ids_to_update.foldl SpatialGrid3D.setThiolFalse s.grid) i = some m
      rw [thiol_fold_get, if_neg hni]
      exact hm
    rw [hids] at hin
    obtain ⟨c, hc, hicc⟩ := List.mem_flatMap.mp hin
    have hic : c.molecule_a_id = i ∨ c.molecule_b_id = i := by
      rcases List.mem_cons.mp hicc with h | h
      · exact Or.inl h.symm
      · exact Or.inr (List.mem_singleton.mp h).symm
    obtain ⟨a, ha, hsame⟩ := addNewBonds_covers acc.new_bonds s.bonds c hc
    have hanot : a ∉ s.bonds := by
      intro hmem
      obtain ⟨hra, hrb⟩ := hreact c hc
      apply hbonds a hmem
      rcases hsame with ⟨h1, h2⟩ | ⟨h1, h2⟩
      · exact ⟨by rw [h1]; exact hra, by rw [h2]; exact hrb⟩
      · exact ⟨by rw [h1]; exact hrb, by rw [h2]; exact hra⟩
    refine ⟨a, ha, hanot, ?_⟩
    rcases hsame with ⟨h1, h2⟩ | ⟨h1, h2⟩ <;> rcases hic with h3 | h3
    · exact Or.inl (h1.trans h3)
    · exact Or.inr (h2.trans h3)
    · exact Or.inr (h2.trans h3)
    · exact Or.inl (h1.trans h3)
  · rintro ⟨b, hb, hbnot, hend⟩
    have hbnew : b ∈ acc.new_bonds := by
      rcases addNewBonds_src acc.new_bonds s.bonds b hb with h | h
      · exact absurd h hbnot
      · exact h
    obtain ⟨hra, hrb⟩ := hreact b hbnew
    have hre : isReactive s.grid i := by
      rcases hend with h | h
      · rw [← h]; exact hra
      · rw [← h]; exact hrb
    refine ⟨hre, ?_⟩
    have hin : i ∈ acc.mol_ids_to_update := by
      rw [hids]
      refine List.mem_flatMap.mpr ⟨b, hbnew, ?_⟩
      rcases hend with h | h
      · rw [h]; exact List.mem_cons_self _ _
      · rw [h]; exact List.mem_cons_of_mem _ (List.mem_singleton.mpr rfl)
    rintro ⟨m', hm', hty'⟩
    have hm'' : SpatialGrid3D.get_molecule
        (acc.mol_ids_to_update.foldl SpatialGrid3D.setThiolFalse s.grid) i =
        some m' := hm'
    rw [thiol_fold_get, if_pos hin] at hm''
    cases hmo : SpatialGrid3D.get_molecule s.grid i with
    | none =>
      rw [hmo] at hm''
      exact Option.noConfusion hm''
    | some m =>
      rw [hmo] at hm''
      have hmc : m' = clearThiol m := by
        rw [Option.map_some'] at hm''
        injection hm'' with h'
        exact h'.symm
      exact clearThiol_not_reactive m (by rw [← hmc]; exact hty')

/-- Witness for C4 at the two-glutenin state with the all-zero sample
stream (which accepts every candidate pair). -/
theorem bond_formation_reactive_commit_witness :
    (isReactive glutenin2State.grid 1 ∧
        ¬ isReactive ((glutenin2State.form_disulfide_bridges magL1 rngZero).1).grid 1) ↔
      ∃ b ∈ (glutenin2State.form_disulfide_bridges magL1 rngZero).1.bonds,
        b ∉ glutenin2State.bonds ∧
        (b.molecule_a_id = 1 ∨ b.molecule_b_id = 1) := by
  refine bond_formation_reactive_commit magL1 glutenin2State rngZero 1 ?_ ?_ ?_
  · decide
  · decide
  · intro b hb
    exact absurd hb (List.not_mem_nil b)
